import Mathlib

/-!
Verification of the pgmock virtual network stack (stack-auth/pgmock).

This file gives a shallow embedding, in Lean 4, of the parts of the
TypeScript source that the specification claims talk about:

- src/utils/internet-checksum.ts : internetChecksum, pseudoChecksum, udpChecksum
- src/utils/callback-event-target.ts : CallbackEventTarget.emit, together with
  the dispatch glue of createHandlersRecursively in network-adapter.ts
- src/protocols/udp.ts : the onSendData emit path
- src/routers/router.ts : Router device registry, IP allocation, ARP responder
- src/protocols/tcp.ts : TcpSocket state machine, write segmentation,
  ACK-driven retirement of unacknowledged packets, close semantics

JavaScript numbers are modelled as Nat (or Int where the source relies on
signed 32-bit behaviour, which is then spelled out explicitly).  Uint8Array
values are modelled as List Nat.  JS Map is modelled as an association list
with set-updates-in-place-or-appends semantics, matching insertion order.
-/

namespace Pgmock

/-! ### Byte helpers (src/utils/endianness.ts)

toBigEndianFromInt writes result[i] = int / 256 ^ (bytes - i - 1) into a
Uint8Array; the Uint8Array store truncates to the low byte, which for a
non-negative integer is flooring division followed by mod 256. -/

def beBytes (width n : Nat) : List Nat :=
  (List.range width).map (fun i => n / 256 ^ (width - i - 1) % 256)

/-! ### Internet checksum (src/utils/internet-checksum.ts)

internetChecksum reduces over the byte sequence, adding byte * 256 at even
indices and byte at odd indices, then folds the accumulator with
res = (res and 0xffff) + (res >> 16) while res > 0xffff.  The JavaScript
bitwise operators coerce their operands to signed 32-bit integers, so the
step really computes on res mod 2 ^ 32, and once that value reaches 2 ^ 31
the shift propagates the sign bit.  checksumFoldJs models this exactly;
checksumFold is the same fold on the regime where the accumulator stays
below 2 ^ 31 and the coercion is the identity, so the bitwise operations
are mod and division by 2 ^ 16.  The two are proved to agree on that regime
(checksumFoldJs_eq_checksumFold), and the sign extension at 2 ^ 31 is real
(internetChecksumJs_sign_extends).  Both folds strictly decrease a positive
accumulator, so fuel equal to the starting value suffices. -/

def byteSum (idx : Nat) : List Nat → Nat
  | [] => 0
  | b :: rest => (if idx % 2 = 0 then b * 256 else b) + byteSum (idx + 1) rest

def checksumFold (fuel res : Nat) : Nat :=
  match fuel with
  | 0 => res
  | fuel + 1 => if res > 0xffff then checksumFold fuel (res % 65536 + res / 65536) else res

def internetChecksum (data : List Nat) : Nat :=
  checksumFold (byteSum 0 data) (byteSum 0 data)

/-- The fold of internet-checksum.ts at full JavaScript fidelity.  For a
non-negative accumulator, `res & 0xffff` is the low 16 bits of the 32-bit
pattern, (res mod 2 ^ 32) mod 2 ^ 16, and `res >> 16` is the sign-propagating
shift of the signed 32-bit value: (res mod 2 ^ 32) / 2 ^ 16, lowered by 2 ^ 16
once res mod 2 ^ 32 reaches 2 ^ 31.  A negative accumulator ends the loop
(the guard res > 0xffff fails), so the step is only ever taken at positive
values, and the initial reduce sum is exact (a real byte array cannot push it
to 2 ^ 53 where doubles lose integers). -/
def checksumFoldJs (fuel : Nat) (res : Int) : Int :=
  match fuel with
  | 0 => res
  | fuel + 1 =>
    if res > 0xffff then
      checksumFoldJs fuel ((res % 0x100000000) % 0x10000 +
        (if 0x80000000 ≤ res % 0x100000000 then res % 0x100000000 / 0x10000 - 0x10000
         else res % 0x100000000 / 0x10000))
    else res

/-- internetChecksum with the exact signed 32-bit semantics of the JavaScript
fold.  internetChecksum above is its restriction to byte sums below 2 ^ 31,
where the two coincide (internetChecksumJs_eq); the checksums computed on the
UDP emit path all sit in that regime. -/
def internetChecksumJs (data : List Nat) : Int :=
  checksumFoldJs (byteSum 0 data) (byteSum 0 data)

/-- pseudoChecksum covers srcIp bytes, destIp bytes, a zero byte, the protocol
number, the two big-endian length bytes and the packet itself. -/
def pseudoChecksum (srcIp destIp : List Nat) (packet : List Nat) (protocol : Nat) : Nat :=
  internetChecksum (srcIp ++ destIp ++ [0x00, protocol] ++ beBytes 2 packet.length ++ packet)

/-- udpChecksum returns 0 when bytes 6 and 7 of the UDP packet (the checksum
field) are both zero, and the pseudo-header checksum otherwise. -/
def udpChecksum (srcIp destIp : List Nat) (udpPacketBinary : List Nat) : Nat :=
  let res := pseudoChecksum srcIp destIp udpPacketBinary 0x11
  if udpPacketBinary.get? 6 = some 0x00 ∧ udpPacketBinary.get? 7 = some 0x00 then 0 else res

/-! ### UDP emit path (src/protocols/udp.ts, onSendData)

The source computes `~udpChecksum(...)` with the JavaScript `~` operator,
which operates on signed 32-bit integers: for 0 ≤ x < 2 ^ 31 it yields the
negative number -(x + 1).  The zero test and the byte stores then see that
signed value: `x >> 8` sign-extends (floor division by 256) and `x & 0xff`
takes the low eight bits (Euclidean mod 256). -/

def jsNot (x : Nat) : Int := -((x : Int) + 1)

def jsShr8 (x : Int) : Int := Int.fdiv x 256

def jsAnd255 (x : Int) : Nat := (x % 256).toNat

/-- The UDP datagram bytes produced by the udp.ts onSendData listener:
header with 0xff 0xff checksum placeholder, then the checksum field is
overwritten with the complement of the pseudo-header checksum (replaced by
0xffff if the complemented value is zero). -/
def udpOnSendData (srcIp destIp : List Nat) (srcPort destPort : Nat) (payload : List Nat) :
    List Nat :=
  let udpBytes := beBytes 2 srcPort ++ beBytes 2 destPort ++ beBytes 2 (payload.length + 8) ++
    [0xff, 0xff] ++ payload
  let checksumField0 : Int := jsNot (udpChecksum srcIp destIp udpBytes)
  let checksumField : Int := if checksumField0 = 0 then 0xffff else checksumField0
  (udpBytes.set 6 (jsAnd255 (jsShr8 checksumField))).set 7 (jsAnd255 checksumField)

/-! ### Facts about the checksum fold -/

/-! ### Callback event target and layer dispatch
(src/utils/callback-event-target.ts and createHandlersRecursively in
src/network-adapter.ts)

CallbackEventTarget.emit iterates over the listener map in insertion order;
a once-listener is deleted from the map before its callback runs (affecting
future emits only), every callback is invoked and its result collected.  To
make invocation observable in a pure embedding, callbacks thread an explicit
state value of type sigma.  emitTarget returns the collected results, the
listeners remaining for future emits, and the final threaded state.

The dispatch glue in createHandlersRecursively wires a layer so that an
inbound frame is emitted to the processData/processFrame target and the
layer reports consumed = results.some(r => r.result.consumed). -/

structure Listener (σ α β : Type) where
  once : Bool
  callback : σ → α → β × σ

def emitTarget {σ α β : Type} : List (Listener σ α β) → α → σ →
    List β × List (Listener σ α β) × σ
  | [], _, s => ([], [], s)
  | l :: rest, a, s =>
    let r1 := l.callback s a
    let rr := emitTarget rest a r1.2
    (r1.1 :: rr.1, (if l.once then rr.2.1 else l :: rr.2.1), rr.2.2)

/-- The consumed result of offering one inbound frame to the registered
subprotocol hooks of a layer, as wired by createHandlersRecursively:
emit to every hook, then report whether some result was consumed. -/
def layerDispatch {σ α : Type} (hooks : List (Listener σ α Bool)) (frame : α) (s : σ) :
    Bool × σ :=
  let r := emitTarget hooks frame s
  (r.1.any id, r.2.2)

/-- A subprotocol hook instrumented to record its invocation: hook number i
appends i to the log state and reports consumed = f frame. -/
def logHook {α : Type} (i : Nat) (f : α → Bool) : Listener (List Nat) α Bool :=
  ⟨false, fun s a => (f a, s ++ [i])⟩

def logHooks {α : Type} (start : Nat) : List (α → Bool) → List (Listener (List Nat) α Bool)
  | [] => []
  | f :: rest => logHook start f :: logHooks (start + 1) rest

/-! ### TCP sockets (src/protocols/tcp.ts)

TcpSocket is modelled as a record of its mutable fields; callback lists are
modelled by their registered count (the observable effect of invoking them is
an explicit event).  Socket methods return the updated socket together with
the list of observable events they emit, in order:
- segmentSent p: the synchronous first transmission performed by _sendPacket
  (retransmissions are timer-driven and outside this synchronous model);
- dataDelivered bytes: _onDataCallback handing packet.data to onData;
- establishedCallbacksFired n / closeCallbacksFired n: the loop invoking the
  n registered onEstablished / onClose callbacks;
- establishedCallbackScheduled: setTimeout(() => _onEstablishedCallback(), 0).
Methods that throw in the source return none.  IP addresses are modelled by
their 32-bit integer value.  windowSize, urgentPointer and options are
optional fields never set by TcpSocket and never read by process, so they are
omitted from the packet model. -/

inductive TcpState
  | INIT
  | LISTEN
  | SYN_SENT
  | SYN_RECEIVED
  | ESTABLISHED
  | CLOSED
deriving DecidableEq

structure TcpFlags where
  ns : Bool := false
  cwr : Bool := false
  ece : Bool := false
  urg : Bool := false
  ack : Bool := false
  psh : Bool := false
  rst : Bool := false
  syn : Bool := false
  fin : Bool := false
deriving DecidableEq

structure TcpPacket where
  srcIp : Nat
  destIp : Nat
  srcPort : Nat
  destPort : Nat
  seq : Nat
  ack : Nat
  flags : TcpFlags
  data : List Nat
deriving DecidableEq

structure TcpSocket where
  isServer : Bool
  srcIp : Nat
  destIp : Nat
  srcPort : Nat
  destPort : Nat
  state : TcpState
  seq : Nat
  ack : Nat
  sentPacketsUnacknowledged : List TcpPacket
  receivedPacketsUnacknowledged : List TcpPacket
  writeOnceEstablished : List (List Nat)
  nEstablishedCallbacks : Nat
  nCloseCallbacks : Nat
deriving DecidableEq

inductive TcpEvent
  | segmentSent (packet : TcpPacket)
  | dataDelivered (bytes : List Nat)
  | establishedCallbacksFired (n : Nat)
  | closeCallbacksFired (n : Nat)
  | establishedCallbackScheduled
deriving DecidableEq

/-- _sendPacket: compose the full packet from the socket 4-tuple, advance seq
by seqIncrement, push the packet onto the unacked-sent list and transmit it
(the first, synchronous transmission of the retry loop). -/
def sendPacket (sock : TcpSocket) (seqIncrement : Nat) (seq ack : Nat) (flags : TcpFlags)
    (data : List Nat) : TcpSocket × List TcpEvent :=
  let packet : TcpPacket :=
    { srcIp := sock.srcIp, destIp := sock.destIp, srcPort := sock.srcPort,
      destPort := sock.destPort, seq := seq, ack := ack, flags := flags, data := data }
  ({ sock with
      seq := sock.seq + seqIncrement,
      sentPacketsUnacknowledged := sock.sentPacketsUnacknowledged ++ [packet] },
   [.segmentSent packet])

/-- close(): unconditionally set state CLOSED and run the onClose callbacks
(no FIN is emitted; the source marks the missing termination protocol TODO). -/
def TcpSocket.close (sock : TcpSocket) : TcpSocket × List TcpEvent :=
  ({ sock with state := .CLOSED }, [.closeCallbacksFired sock.nCloseCallbacks])

/-- The 1200-byte slices data.slice(i, i + 1200) taken by TcpSocket.write;
fuel is the list length, which bounds the iteration count. -/
def chunksAux (fuel : Nat) (data : List Nat) : List (List Nat) :=
  match fuel, data with
  | _, [] => []
  | 0, _ :: _ => []
  | fuel + 1, data => data.take 1200 :: chunksAux fuel (data.drop 1200)

def chunks1200 (data : List Nat) : List (List Nat) :=
  chunksAux data.length data

/-- _writeSinglePacket: throws unless ESTABLISHED, otherwise sends a data
segment with the ACK flag at the current seq and ack, advancing seq by the
payload length. -/
def writeSinglePacket (sock : TcpSocket) (data : List Nat) : Option (TcpSocket × List TcpEvent) :=
  if sock.state = .ESTABLISHED then
    some (sendPacket sock data.length sock.seq sock.ack { ack := true } data)
  else none

def writeChunks (sock : TcpSocket) : List (List Nat) → Option (TcpSocket × List TcpEvent)
  | [] => some (sock, [])
  | c :: rest => do
    let r1 ← writeSinglePacket sock c
    let r2 ← writeChunks r1.1 rest
    some (r2.1, r1.2 ++ r2.2)

/-- write(data): buffer when not ESTABLISHED, else send the 1200-byte chunks. -/
def TcpSocket.write (sock : TcpSocket) (data : List Nat) : Option (TcpSocket × List TcpEvent) :=
  if sock.state ≠ .ESTABLISHED then
    some ({ sock with writeOnceEstablished := sock.writeOnceEstablished ++ [data] }, [])
  else writeChunks sock (chunks1200 data)

def writeAll (sock : TcpSocket) : List (List Nat) → Option (TcpSocket × List TcpEvent)
  | [] => some (sock, [])
  | d :: rest => do
    let r1 ← sock.write d
    let r2 ← writeAll r1.1 rest
    some (r2.1, r1.2 ++ r2.2)

/-- _onEstablishedCallback: splice out the whole pre-established write buffer
and write each entry, THEN invoke the registered onEstablished callbacks. -/
def onEstablishedCallbackRun (sock : TcpSocket) : Option (TcpSocket × List TcpEvent) := do
  let buffered := sock.writeOnceEstablished
  let sock := { sock with writeOnceEstablished := [] }
  let r ← writeAll sock buffered
  some (r.1, r.2 ++ [.establishedCallbacksFired r.1.nEstablishedCallbacks])

/-- The ESTABLISHED receive drain loop: while some queued packet has
seq ≤ ack, remove the first such packet (the source removes it by object
identity, which corresponds to removal at the found index); a packet with
seq < ack is an already-acknowledged retransmission (acknowledge again,
deliver nothing), otherwise advance ack by the payload length and deliver
non-empty payloads to onData.  Fuel is the queue length: every iteration
removes one element. -/
def drainLoop (fuel : Nat) (queue : List TcpPacket) (ack : Nat) (mustAck : Bool)
    (events : List TcpEvent) : List TcpPacket × Nat × Bool × List TcpEvent :=
  match fuel with
  | 0 => (queue, ack, mustAck, events)
  | fuel + 1 =>
    match queue.findIdx? (fun p => p.seq ≤ ack) with
    | none => (queue, ack, mustAck, events)
    | some i =>
      match queue.get? i with
      | none => (queue, ack, mustAck, events)
      | some packet =>
        let queue' := queue.eraseIdx i
        if packet.seq < ack then
          drainLoop fuel queue' ack true events
        else
          drainLoop fuel queue' (ack + packet.data.length)
            (if packet.data.length > 0 then true else mustAck)
            (events ++ if packet.data.length > 0 then [.dataDelivered packet.data] else [])

/-- The ACK-driven retirement step of process: when the incoming packet has
the ACK flag, keep only the unacked sent packets p with
p.seq + p.data.length > packet.ack. -/
def ackFiltered (sock : TcpSocket) (packet : TcpPacket) : TcpSocket :=
  if packet.flags.ack then
    { sock with
        sentPacketsUnacknowledged :=
          sock.sentPacketsUnacknowledged.filter
            (fun p => p.seq + p.data.length > packet.ack) }
  else sock

/-- process(tcpPacket): the inbound packet handler of TcpSocket.  Mirrors the
source order: INIT throws; own packets (matching source ip and port) are
ignored; packets not addressed to the socket throw; FIN closes immediately;
an ACK retires every unacked sent packet p with p.seq + p.data.length ≤ ack;
then the state switch runs. -/
def TcpSocket.process (sock : TcpSocket) (packet : TcpPacket) :
    Option (TcpSocket × List TcpEvent) :=
  if sock.state = .INIT then none
  else if packet.srcIp = sock.srcIp ∧ packet.srcPort = sock.srcPort then some (sock, [])
  else if packet.destIp ≠ sock.srcIp ∨ packet.destPort ≠ sock.srcPort then none
  else if packet.flags.fin then some sock.close
  else
    let sock1 := ackFiltered sock packet
    match sock1.state with
    | .LISTEN =>
      if packet.flags.syn then
        let sock2 := { sock1 with state := .SYN_RECEIVED, ack := packet.seq + 1 }
        some (sendPacket sock2 1 sock2.seq sock2.ack { syn := true, ack := true } [])
      else some (sock1, [])
    | .SYN_RECEIVED =>
      if packet.flags.ack then
        some ({ sock1 with state := .ESTABLISHED }, [.establishedCallbackScheduled])
      else some (sock1, [])
    | .SYN_SENT =>
      if packet.flags.syn ∧ packet.flags.ack then
        let sock2 := { sock1 with state := .ESTABLISHED, ack := packet.seq + 1 }
        let r := sendPacket sock2 0 sock2.seq sock2.ack { ack := true } []
        some (r.1, r.2 ++ [.establishedCallbackScheduled])
      else some (sock1, [])
    | .ESTABLISHED =>
      if sock1.writeOnceEstablished ≠ [] then none
      else
        let queue := sock1.receivedPacketsUnacknowledged ++ [packet]
        match drainLoop queue.length queue sock1.ack false [] with
        | (queue', ack', mustAck, events) =>
          let sock2 := { sock1 with receivedPacketsUnacknowledged := queue', ack := ack' }
          if mustAck then
            let r := sendPacket sock2 0 sock2.seq sock2.ack { ack := true } []
            some (r.1, events ++ r.2)
          else some (sock2, events)
    | .CLOSED => some (sock1, [])
    | .INIT => none

/-- The segments that write emits for a given chunk list: each carries the
socket 4-tuple, the ACK flag, ack fixed at the current ack, and seq starting
at the current seq and advancing by each payload length. -/
def packetsOf (srcIp destIp srcPort destPort seq ack : Nat) :
    List (List Nat) → List TcpPacket
  | [] => []
  | c :: rest =>
    { srcIp := srcIp, destIp := destIp, srcPort := srcPort, destPort := destPort,
      seq := seq, ack := ack, flags := { ack := true }, data := c }
      :: packetsOf srcIp destIp srcPort destPort (seq + c.length) ack rest

/-- A concrete ESTABLISHED socket used to exercise the write path. -/
def sampleEstablishedSocket : TcpSocket :=
  { isServer := false, srcIp := 1, destIp := 2, srcPort := 10, destPort := 20,
    state := .ESTABLISHED, seq := 1000, ack := 2000, sentPacketsUnacknowledged := [],
    receivedPacketsUnacknowledged := [], writeOnceEstablished := [],
    nEstablishedCallbacks := 0, nCloseCallbacks := 0 }

/-- A concrete ESTABLISHED socket with a non-empty pre-established write
buffer and one registered onEstablished callback. -/
def sampleBufferedSocket : TcpSocket :=
  { isServer := false, srcIp := 1, destIp := 2, srcPort := 10, destPort := 20,
    state := .ESTABLISHED, seq := 1000, ack := 2000, sentPacketsUnacknowledged := [],
    receivedPacketsUnacknowledged := [], writeOnceEstablished := [[42]],
    nEstablishedCallbacks := 1, nCloseCallbacks := 0 }

/-- The ordering property that claim C2 asserts of the event trace emitted on
entering ESTABLISHED: every established-callbacks invocation comes strictly
before every emitted segment. -/
def callbacksBeforeWrites (events : List TcpEvent) : Prop :=
  ∀ i j, (hi : i < events.length) → (hj : j < events.length) →
    (∃ n, events.get ⟨i, hi⟩ = TcpEvent.establishedCallbacksFired n) →
    (∃ p, events.get ⟨j, hj⟩ = TcpEvent.segmentSent p) → i < j

/-- A concrete CLOSED socket holding one unacknowledged sent data packet with
seq 100 and one data byte (so p.seq + p.data.length = 101). -/
def sampleClosedSocket : TcpSocket :=
  { isServer := false, srcIp := 1, destIp := 2, srcPort := 10, destPort := 20,
    state := .CLOSED, seq := 500, ack := 0,
    sentPacketsUnacknowledged :=
      [{ srcIp := 1, destIp := 2, srcPort := 10, destPort := 20, seq := 100, ack := 0,
         flags := { ack := true }, data := [7] }],
    receivedPacketsUnacknowledged := [], writeOnceEstablished := [],
    nEstablishedCallbacks := 0, nCloseCallbacks := 1 }

/-- A concrete server socket in LISTEN state. -/
def sampleListenSocket : TcpSocket :=
  { isServer := true, srcIp := 1, destIp := 2, srcPort := 10, destPort := 20,
    state := .LISTEN, seq := 700, ack := 0, sentPacketsUnacknowledged := [],
    receivedPacketsUnacknowledged := [], writeOnceEstablished := [],
    nEstablishedCallbacks := 0, nCloseCallbacks := 0 }

/-! ### Router (src/routers/router.ts)

The Router owns a device table: a JS Map from ip (as 32-bit integer, the key
actually used is ip.toInt()) to MAC, and a JS Map from MAC (the key actually
used is mac.toString(), which is injective in the MAC bytes) to Device.  A JS
Map is modelled as an association list where set updates an existing entry in
place (keeping insertion order) and otherwise appends.  MAC addresses are
modelled by their 48-bit integer value; IPv4 addresses by their toInt value.
Ipv4Address.bitAnd/bitOr/bitXor go through toInt, JS 32-bit bitwise ops and
_fromSignedInt, which for 32-bit operands equals the unsigned Nat bitwise
operation; bitNot is ~x & 0xffffffff = 2 ^ 32 - 1 - x. -/

structure DeviceM where
  mac : Nat
  ip : Nat
  isConfirmed : Bool
deriving DecidableEq

def mapSet {α : Type} (k : Nat) (v : α) : List (Nat × α) → List (Nat × α)
  | [] => [(k, v)]
  | e :: rest => if e.1 = k then (k, v) :: rest else e :: mapSet k v rest

def mapGet {α : Type} (k : Nat) : List (Nat × α) → Option α
  | [] => none
  | e :: rest => if e.1 = k then some e.2 else mapGet k rest

structure RouterState where
  mac : Nat
  ip : Nat
  subnetMask : Nat
  addressTable : List (Nat × Nat)
  devices : List (Nat × DeviceM)
deriving DecidableEq

/-- Ipv4Address.bitNot: ~toInt & 0xffffffff, i.e. 2 ^ 32 - 1 - x for x < 2 ^ 32. -/
def jsNot32 (x : Nat) : Nat := 0xffffffff - x

/-- Router.subnet = subnetMask.bitAnd(ip). -/
def RouterState.subnet (st : RouterState) : Nat := st.subnetMask &&& st.ip

/-- The all-bits-set address of the subnet: subnet.bitOr(subnetMask.bitNot()). -/
def RouterState.subnetAllOnes (st : RouterState) : Nat :=
  st.subnet ||| jsNot32 st.subnetMask

def RouterState.isIpAssigned (st : RouterState) (ip : Nat) : Bool :=
  (mapGet ip st.addressTable).isSome

/-- The linear scan of Router._getNextFreeIp: starting at curIpInt = 0, jump
by the xor difference while outside the subnet, skip the two special
addresses (network and all-ones broadcast) and any already-assigned IP, and
return the first free one; the loop ends when curIpInt > 0xffffffff.  Every
iteration increases curIpInt by at least 1, so 2 ^ 32 + 2 fuel makes the fuel
bound unreachable. -/
def scanIp (st : RouterState) : Nat → Nat → Option Nat
  | 0, _ => none
  | fuel + 1, curIpInt =>
    if curIpInt ≤ 0xffffffff then
      let subnetDifference := st.subnet ^^^ (st.subnetMask &&& curIpInt)
      if subnetDifference ≠ 0 then scanIp st fuel (curIpInt + subnetDifference)
      else if curIpInt = st.subnet ∨ curIpInt = st.subnetAllOnes then
        scanIp st fuel (curIpInt + 1)
      else if st.isIpAssigned curIpInt then scanIp st fuel (curIpInt + 1)
      else some curIpInt
    else none

def RouterState.getNextFreeIp (st : RouterState) : Option Nat :=
  scanIp st (0x100000000 + 2) 0

/-- Router._registerDevice: store ip -> mac and mac -> device. -/
def registerDeviceInner (st : RouterState) (device : DeviceM) : RouterState :=
  { st with
      addressTable := mapSet device.ip device.mac st.addressTable,
      devices := mapSet device.mac device st.devices }

/-- Router.registerDevice: allocate the next free IP (undefined when the scan
fails) and register a fresh unconfirmed device for the MAC. -/
def RouterState.registerDevice (st : RouterState) (mac : Nat) :
    Option DeviceM × RouterState :=
  match st.getNextFreeIp with
  | none => (none, st)
  | some ip =>
    let device : DeviceM := { mac := mac, ip := ip, isConfirmed := false }
    (some device, registerDeviceInner st device)

def RouterState.getDeviceByMac (st : RouterState) (mac : Nat) : Option DeviceM :=
  mapGet mac st.devices

/-- Router.getDevice on an Ipv4Address: look the MAC up in the address table,
then the device in the device map. -/
def RouterState.getDeviceByIp (st : RouterState) (ip : Nat) : Option DeviceM :=
  match mapGet ip st.addressTable with
  | none => none
  | some mac => mapGet mac st.devices

def RouterState.getOrRegisterDevice (st : RouterState) (mac : Nat) :
    Option DeviceM × RouterState :=
  match st.getDeviceByMac mac with
  | some d => (some d, st)
  | none => st.registerDevice mac

/-- The router MAC 00:0c:13:37:42:69 as an integer. -/
def routerMacInt : Nat := 0x000c13374269

/-- The Router built by the network adapter: mac 00:0c:13:37:42:69,
ip 192.168.13.37, subnet mask 255.255.0.0; the constructor registers the
router itself (always confirmed) as the first device. -/
def routerInit : RouterState :=
  { mac := routerMacInt, ip := 0xc0a80d25, subnetMask := 0xffff0000,
    addressTable := mapSet 0xc0a80d25 routerMacInt [],
    devices := mapSet routerMacInt
      { mac := routerMacInt, ip := 0xc0a80d25, isConfirmed := true } [] }

inductive RouterOp
  | register (mac : Nat)
  | getOrRegister (mac : Nat)
deriving DecidableEq

def applyOp (st : RouterState) : RouterOp → Option DeviceM × RouterState
  | .register mac => st.registerDevice mac
  | .getOrRegister mac => st.getOrRegisterDevice mac

def runOps (st : RouterState) : List RouterOp → RouterState × List (Option DeviceM)
  | [] => (st, [])
  | op :: rest =>
    let r := applyOp st op
    let rr := runOps r.2 rest
    (rr.1, r.1 :: rr.2)

/-- A device IP allocated against the adapter router configuration: inside
subnet 192.168.0.0/16 and neither the network nor the broadcast address. -/
def GoodDevice (d : DeviceM) : Prop :=
  0xffff0000 &&& d.ip = 0xc0a80000 ∧ d.ip ≠ 0xc0a80000 ∧ d.ip ≠ 0xc0a8ffff

/-- The router table invariant: the adapter constants, and every device entry
is keyed by its MAC, has a good IP and its IP maps back to its MAC in the
address table. -/
def RouterInv (st : RouterState) : Prop :=
  st.subnetMask = 0xffff0000 ∧ st.ip = 0xc0a80d25 ∧
  ∀ e ∈ st.devices, e.2.mac = e.1 ∧ GoodDevice e.2 ∧
    mapGet e.2.ip st.addressTable = some e.2.mac

/-! ### Router ARP responder (Router.ArpImplementation in src/routers/router.ts)

The decoded ARP data (src/protocols/arp.ts): MAC and IPv4 addresses are
modelled by their integer values; queriedMac is present only on replies
(operation 2), so it is an Option.  The Arp decoder validates
hardwareType = 1 and protocolType = 0x0800 before handing decoded frames to
subprotocols, so every frame the responder is offered has hardwareType 1.
MacAddress.isRecipientOfTarget target is target = broadcast or target = self,
with broadcast ff:ff:ff:ff:ff:ff. -/

structure ArpData where
  srcMac : Nat
  destMac : Nat
  hardwareType : Nat
  protocolType : Nat
  hardwareSize : Nat
  protocolSize : Nat
  operation : Nat
  originMac : Nat
  originIp : Nat
  queriedMac : Option Nat
  queriedIp : Nat
deriving DecidableEq

/-- The onProcessFrame hook installed by Router.ArpImplementation: returns
the consumed flag and the reply frame passed to sendFrame, if any. -/
def routerArpOnProcessFrame (router : RouterState) (frame : ArpData) :
    Bool × Option ArpData :=
  if router.mac = frame.srcMac then (true, none)
  else if ¬(frame.destMac = 0xffffffffffff ∨ frame.destMac = router.mac) then (false, none)
  else if frame.hardwareType ≠ 0x1 then (true, none)
  else
    match router.getDeviceByIp frame.queriedIp with
    | some dev =>
      (true, some
        { operation := 0x2, srcMac := router.mac, destMac := frame.srcMac,
          hardwareType := frame.hardwareType, hardwareSize := frame.hardwareSize,
          protocolType := frame.protocolType, protocolSize := frame.protocolSize,
          originMac := frame.originMac, originIp := frame.originIp,
          queriedMac := some dev.mac, queriedIp := frame.queriedIp })
    | none => (true, none)

/-! ### Theorems -/

theorem checksumFold_le (fuel res : Nat) (h : res ≤ fuel) : checksumFold fuel res ≤ 0xffff := by
  induction fuel generalizing res with
  | zero => simpa [checksumFold] using Nat.le_of_lt_succ (by omega)
  | succ fuel ih =>
    simp only [checksumFold]
    by_cases hgt : res > 0xffff
    · simp only [hgt, if_true]
      exact ih _ (by omega)
    · simp only [hgt, if_false]
      omega

theorem checksumFold_mod (fuel res : Nat) :
    checksumFold fuel res % 65535 = res % 65535 := by
  induction fuel generalizing res with
  | zero => rfl
  | succ fuel ih =>
    simp only [checksumFold]
    by_cases hgt : res > 0xffff
    · simp only [hgt, if_true]
      rw [ih]
      omega
    · simp [hgt]

theorem checksumFold_pos (fuel res : Nat) (h : 0 < res) : 0 < checksumFold fuel res := by
  induction fuel generalizing res with
  | zero => simpa [checksumFold]
  | succ fuel ih =>
    simp only [checksumFold]
    by_cases hgt : res > 0xffff
    · simp only [hgt, if_true]
      exact ih _ (by omega)
    · simpa [hgt]

theorem checksumFold_le_self (fuel res : Nat) : checksumFold fuel res ≤ res := by
  induction fuel generalizing res with
  | zero => simp [checksumFold]
  | succ fuel ih =>
    simp only [checksumFold]
    by_cases hgt : res > 0xffff
    · simp only [hgt, if_true]
      exact le_trans (ih _) (by omega)
    · simp [hgt]

theorem checksumFold_eq_ffff (fuel res : Nat) (hle : res ≤ fuel) (hpos : 0 < res)
    (hmod : res % 65535 = 0) : checksumFold fuel res = 0xffff := by
  have h1 := checksumFold_le fuel res hle
  have h2 := checksumFold_mod fuel res
  have h3 := checksumFold_pos fuel res hpos
  omega

theorem internetChecksum_le (data : List Nat) : internetChecksum data ≤ 0xffff :=
  checksumFold_le _ _ le_rfl

theorem internetChecksum_le_sum (data : List Nat) : internetChecksum data ≤ byteSum 0 data :=
  checksumFold_le_self _ _

theorem internetChecksum_mod (data : List Nat) :
    internetChecksum data % 65535 = byteSum 0 data % 65535 :=
  checksumFold_mod _ _

theorem byteSum_append (idx : Nat) (xs ys : List Nat) :
    byteSum idx (xs ++ ys) = byteSum idx xs + byteSum (idx + xs.length) ys := by
  induction xs generalizing idx with
  | nil => simp [byteSum]
  | cons b rest ih =>
    simp only [List.cons_append, byteSum, List.length_cons, List.append_eq]
    rw [ih (idx + 1)]
    have harg : idx + 1 + rest.length = idx + (rest.length + 1) := by omega
    rw [harg, Nat.add_assoc]

theorem byteSum_parity (xs : List Nat) (idx idx' : Nat) (h : idx % 2 = idx' % 2) :
    byteSum idx xs = byteSum idx' xs := by
  induction xs generalizing idx idx' with
  | nil => rfl
  | cons b rest ih =>
    simp only [byteSum, h, ih (idx + 1) (idx' + 1) (by omega)]

theorem byteSum_beBytes2 (c : Nat) (hc : c ≤ 0xffff) : byteSum 0 (beBytes 2 c) = c := by
  simp [beBytes, byteSum, List.range_succ]
  omega

/-- On the regime where the accumulator stays below 2 ^ 31, the signed 32-bit
coercion of the JavaScript fold is the identity, step for step, so the exact
fold and the Nat fold compute the same value. -/
theorem checksumFoldJs_eq_checksumFold (fuel : Nat) :
    ∀ res : Nat, res < 0x80000000 →
      checksumFoldJs fuel (res : Int) = ((checksumFold fuel res : Nat) : Int) := by
  induction fuel with
  | zero => intro res _; rfl
  | succ fuel ih =>
    intro res hlt
    by_cases hgt : res > 0xffff
    · have hgtI : ((res : Int) > 0xffff) := by exact_mod_cast hgt
      have hm : (res : Int) % 0x100000000 = (res : Int) :=
        Int.emod_eq_of_lt (Int.natCast_nonneg res)
          (by exact_mod_cast (by omega : res < 0x100000000))
      have hsmall : ¬ ((0x80000000 : Int) ≤ (res : Int) % 0x100000000) := by
        rw [hm]
        exact_mod_cast Nat.not_le.mpr hlt
      simp only [checksumFoldJs, checksumFold]
      rw [if_pos hgtI, if_pos hgt, if_neg hsmall, hm]
      have harg : (res : Int) % 0x10000 + (res : Int) / 0x10000 =
          ((res % 65536 + res / 65536 : Nat) : Int) := by
        push_cast
        ring
      rw [harg]
      exact ih (res % 65536 + res / 65536) (by omega)
    · have hgtI : ¬ ((res : Int) > 0xffff) := by exact_mod_cast hgt
      simp only [checksumFoldJs, checksumFold]
      rw [if_neg hgtI, if_neg hgt]

theorem internetChecksumJs_eq (data : List Nat) (h : byteSum 0 data < 0x80000000) :
    internetChecksumJs data = ((internetChecksum data : Nat) : Int) :=
  checksumFoldJs_eq_checksumFold _ _ h

theorem byteSum_replicate_ff (n : Nat) :
    ∀ idx, byteSum idx (List.replicate (2 * n) 0xff) = n * 0xffff := by
  induction n with
  | zero => intro idx; rfl
  | succ n ih =>
    intro idx
    have hrep : List.replicate (2 * (n + 1)) (0xff : Nat) =
        0xff :: 0xff :: List.replicate (2 * n) 0xff := by
      rw [show 2 * (n + 1) = 2 * n + 1 + 1 from by omega, List.replicate_succ,
        List.replicate_succ]
    rw [hrep]
    simp only [byteSum]
    rw [ih (idx + 1 + 1)]
    by_cases hp : idx % 2 = 0
    · rw [if_pos hp, if_neg (by omega : ¬ ((idx + 1) % 2 = 0))]
      omega
    · rw [if_neg hp, if_pos (by omega : (idx + 1) % 2 = 0)]
      omega

/-- At byte sums of 2 ^ 31 and above the JavaScript fold sign-extends: on
65540 bytes of 0xff the byte sum is 32770 * 0xffff, which exceeds 2 ^ 31, and
the fold returns -1 rather than 0xffff.  This is why the amended claim C7
bounds the byte sum. -/
theorem internetChecksumJs_sign_extends :
    internetChecksumJs (List.replicate 65540 0xff) = -1 := by
  show checksumFoldJs (byteSum 0 (List.replicate 65540 0xff))
    (byteSum 0 (List.replicate 65540 0xff)) = -1
  rw [show (65540 : Nat) = 2 * 32770 from by norm_num, byteSum_replicate_ff 32770 0]
  decide

/-- For every byte sequence B of even length, appending the two big-endian
bytes of the 16-bit complement of the Nat-model checksum and re-running the
Nat-model checksum folds to 0xffff. -/
theorem internetChecksum_roundtrip_even (B : List Nat) (h : B.length % 2 = 0) :
    internetChecksum (B ++ beBytes 2 (0xffff - internetChecksum B)) = 0xffff := by
  have hsle := internetChecksum_le B
  have hsS := internetChecksum_le_sum B
  have hmod := internetChecksum_mod B
  have hbs : byteSum 0 (B ++ beBytes 2 (0xffff - internetChecksum B)) =
      byteSum 0 B + (0xffff - internetChecksum B) := by
    rw [byteSum_append]
    rw [byteSum_parity _ (0 + B.length) 0 (by omega)]
    rw [byteSum_beBytes2 _ (by omega)]
  show checksumFold _ _ = 0xffff
  rw [hbs]
  exact checksumFold_eq_ffff _ _ le_rfl (by omega) (by omega)

/-- Claim C7 (amended): for every byte sequence B of even length whose byte
sum is small enough that neither checksum computation reaches the signed
32-bit sign extension (byteSum B + 0xffff < 2 ^ 31), appending the two
big-endian bytes of the 16-bit complement of internetChecksumJs B and
re-running internetChecksumJs folds to 0xffff — at full JavaScript fidelity.
Both restrictions are forced: for odd-length B the appended word straddles the
16-bit word grid (see the counterexample), and at byte sums of 2 ^ 31 and
above the fold sign-extends to a negative result
(internetChecksumJs_sign_extends). -/
theorem claim_C7_amended (B : List Nat) (h : B.length % 2 = 0)
    (hsum : byteSum 0 B + 0xffff < 0x80000000) :
    internetChecksumJs (B ++ beBytes 2 (0xffff - (internetChecksumJs B).toNat)) = 0xffff := by
  have hS : byteSum 0 B < 0x80000000 := by omega
  have h1 := internetChecksumJs_eq B hS
  have hle := internetChecksum_le B
  have htn : (0xffff - (internetChecksumJs B).toNat) = 0xffff - internetChecksum B := by
    rw [h1, Int.toNat_natCast]
  rw [htn]
  have hbs : byteSum 0 (B ++ beBytes 2 (0xffff - internetChecksum B)) =
      byteSum 0 B + (0xffff - internetChecksum B) := by
    rw [byteSum_append]
    rw [byteSum_parity _ (0 + B.length) 0 (by omega)]
    rw [byteSum_beBytes2 _ (by omega)]
  have hsum2 : byteSum 0 (B ++ beBytes 2 (0xffff - internetChecksum B)) < 0x80000000 := by
    rw [hbs]
    omega
  rw [internetChecksumJs_eq _ hsum2, internetChecksum_roundtrip_even B h]
  norm_num

/-- Claim C7 counterexample: for the odd-length byte sequence [1], the
checksum-append round trip folds to 255, not 0xffff, so the claim as stated
(for ANY byte sequence) is false.  The input is tiny, so the signed 32-bit
coercion in the fold is the identity here and the model is exact. -/
theorem claim_C7_counterexample :
    internetChecksumJs ([1] ++ beBytes 2 (0xffff - (internetChecksumJs [1]).toNat)) = 255 ∧
    (255 : Int) ≠ 0xffff := by
  constructor
  · decide
  · decide

/-- Claim C7 witness: the amended theorem applied to the concrete even-length
sequence [192, 168], whose checksum round trip folds to 0xffff. -/
theorem claim_C7_witness :
    ([192, 168] : List Nat).length % 2 = 0 ∧
    byteSum 0 [192, 168] + 0xffff < 0x80000000 ∧
    internetChecksumJs
      ([192, 168] ++ beBytes 2 (0xffff - (internetChecksumJs [192, 168]).toNat)) = 0xffff :=
  ⟨by decide, by decide, claim_C7_amended [192, 168] (by decide) (by decide)⟩

/-- Claim C6 (code bug): with srcIp 192.168.0.1, destIp 63.53.0.0, both ports
zero and an empty payload, the pseudo-header ones-complement sum of the emitted
UDP datagram (with the 0xff 0xff placeholder) folds to 0xffff, i.e. the
complemented checksum field is zero as a 16-bit value.  The source clearly
intends to place 0xffff on the wire in this case (the
`if (udpChecksumField === 0) udpChecksumField = 0xffff` branch of udp.ts), but
the JavaScript `~` yields the signed 32-bit value -65536, which is not equal to
0, so the replacement branch never fires and the bytes stored into the wire
checksum field are 0x00 0x00 instead of 0xff 0xff. -/
theorem claim_C6_code_bug :
    udpChecksum [192, 168, 0, 1] [63, 53, 0, 0]
      (beBytes 2 0 ++ beBytes 2 0 ++ beBytes 2 (0 + 8) ++ [0xff, 0xff] ++ []) = 0xffff ∧
    (udpOnSendData [192, 168, 0, 1] [63, 53, 0, 0] 0 0 []).get? 6 = some 0x00 ∧
    (udpOnSendData [192, 168, 0, 1] [63, 53, 0, 0] 0 0 []).get? 7 = some 0x00 := by
  refine ⟨by decide, by decide, by decide⟩

theorem range_map_add_succ (i n : Nat) :
    (List.range (n + 1)).map (fun x => i + x) = i :: (List.range n).map (fun x => i + 1 + x) := by
  rw [List.range_succ_eq_map]
  simp only [List.map_cons, List.map_map, Nat.add_zero]
  refine congrArg (i :: ·) (List.map_congr_left (fun x _ => ?_))
  simp only [Function.comp_apply, Nat.succ_eq_add_one]
  omega

theorem emitTarget_logHooks {α : Type} (fs : List (α → Bool)) (a : α) (i : Nat) (s : List Nat) :
    emitTarget (logHooks i fs) a s =
      (fs.map (fun f => f a), logHooks i fs, s ++ (List.range fs.length).map (fun x => i + x)) := by
  induction fs generalizing i s with
  | nil => simp [logHooks, emitTarget]
  | cons f rest ih =>
    simp only [logHooks, emitTarget, logHook, List.map_cons, List.length_cons]
    rw [ih (i + 1) (s ++ [i]), range_map_add_succ]
    simp [List.append_assoc]

/-- Claim C1 (amended): for every layer and inbound frame, the frame is offered
to every registered subprotocol hook, in registration order, regardless of
which hooks return consumed; the layer reports the frame consumed exactly when
some hook consumed it.  Dispatch does NOT stop at the first consumer: with
hooks instrumented to log their invocation, the final log is always the full
registration-order list 0, 1, ..., n-1. -/
theorem claim_C1_amended {α : Type} (fs : List (α → Bool)) (frame : α) :
    layerDispatch (logHooks 0 fs) frame [] =
      (fs.any (fun f => f frame), List.range fs.length) := by
  simp only [layerDispatch, emitTarget_logHooks, List.any_map, List.nil_append]
  refine Prod.ext ?_ ?_
  · show (List.map (fun f => f frame) fs).any id = fs.any (fun f => f frame)
    induction fs with
    | nil => rfl
    | cons f rest ih => simp [ih, Function.comp]
  · show List.map (fun x => 0 + x) (List.range fs.length) = List.range fs.length
    have h2 : List.map (fun x => 0 + x) (List.range fs.length) =
        List.map id (List.range fs.length) :=
      List.map_congr_left (fun x _ => by simp)
    rw [h2, List.map_id]

/-- Claim C1 counterexample: a layer with two registered hooks that both
return consumed = true.  The claim as stated requires that the second hook is
never invoked (dispatch stops at the first consumer), so the invocation log
would have to be [0]; but CallbackEventTarget.emit invokes every listener and
createHandlersRecursively only inspects results.some(...) afterwards, so the
log is [0, 1]: the hook after the first consumer IS invoked. -/
theorem claim_C1_counterexample :
    (layerDispatch [logHook 0 (fun _ => true), logHook 1 (fun _ => true)] 0 ([] : List Nat)).2
        = [0, 1] ∧
    (layerDispatch [logHook 0 (fun _ => true), logHook 1 (fun _ => true)] 0 ([] : List Nat)).1
        = true ∧
    ([0, 1] : List Nat) ≠ [0] := by
  refine ⟨by decide, by decide, by decide⟩

/-- Claim C1 witness: the amended theorem applied to two concrete hooks, the
first consuming, the second not: both are invoked (log [0, 1]) and the layer
reports consumed. -/
theorem claim_C1_witness :
    layerDispatch (logHooks 0 [fun (_ : Nat) => true, fun _ => false]) 7 [] = (true, [0, 1]) := by
  have h := claim_C1_amended [fun (_ : Nat) => true, fun _ => false] 7
  simpa using h

theorem chunksAux_flatten (fuel : Nat) :
    ∀ data : List Nat, data.length ≤ fuel → (chunksAux fuel data).flatten = data := by
  induction fuel with
  | zero =>
    intro data h
    cases data with
    | nil => simp [chunksAux]
    | cons b rest => simp at h
  | succ fuel ih =>
    intro data h
    cases data with
    | nil => simp [chunksAux]
    | cons b rest =>
      simp only [chunksAux, List.flatten_cons]
      rw [ih _ (by simp only [List.length_drop, List.length_cons] at h ⊢; omega)]
      exact List.take_append_drop 1200 (b :: rest)

theorem chunksAux_le (fuel : Nat) :
    ∀ data : List Nat, ∀ c ∈ chunksAux fuel data, c.length ≤ 1200 := by
  induction fuel with
  | zero =>
    intro data c hc
    cases data with
    | nil => simp [chunksAux] at hc
    | cons b rest => simp [chunksAux] at hc
  | succ fuel ih =>
    intro data c hc
    cases data with
    | nil => simp [chunksAux] at hc
    | cons b rest =>
      simp only [chunksAux, List.mem_cons] at hc
      rcases hc with h1 | h2
      · subst h1
        simp [List.length_take]
      · exact ih _ _ h2

theorem chunks1200_flatten (data : List Nat) : (chunks1200 data).flatten = data :=
  chunksAux_flatten data.length data le_rfl

theorem chunks1200_le (data : List Nat) : ∀ c ∈ chunks1200 data, c.length ≤ 1200 :=
  chunksAux_le data.length data

theorem writeChunks_est (cs : List (List Nat)) (sock : TcpSocket)
    (h : sock.state = .ESTABLISHED) :
    writeChunks sock cs = some
      ({ sock with
          seq := sock.seq + (cs.map List.length).sum,
          sentPacketsUnacknowledged := sock.sentPacketsUnacknowledged ++
            packetsOf sock.srcIp sock.destIp sock.srcPort sock.destPort sock.seq sock.ack cs },
       (packetsOf sock.srcIp sock.destIp sock.srcPort sock.destPort sock.seq sock.ack cs).map
         .segmentSent) := by
  induction cs generalizing sock with
  | nil => simp [writeChunks, packetsOf]
  | cons c rest ih =>
    simp only [writeChunks, writeSinglePacket, h, if_pos, sendPacket, Option.bind_eq_bind,
      Option.some_bind]
    rw [ih _ (by simp [h])]
    simp only [Option.some_bind, Option.some.injEq, packetsOf, List.map_cons,
      List.map, List.sum_cons]
    simp only [List.append_assoc, Nat.add_assoc, List.singleton_append, List.cons_append,
      List.nil_append]

theorem chunksAux_fuel_irrel (f1 : Nat) :
    ∀ f2 (data : List Nat), data.length ≤ f1 → data.length ≤ f2 →
      chunksAux f1 data = chunksAux f2 data := by
  induction f1 with
  | zero =>
    intro f2 data h1 h2
    cases data with
    | nil => cases f2 <;> simp [chunksAux]
    | cons b t => simp at h1
  | succ f1 ih =>
    intro f2 data h1 h2
    cases data with
    | nil => cases f2 <;> simp [chunksAux]
    | cons b t =>
      cases f2 with
      | zero => simp at h2
      | succ f2 =>
        simp only [chunksAux]
        rw [ih f2 ((b :: t).drop 1200)
          (by simp only [List.length_drop, List.length_cons] at h1 ⊢; omega)
          (by simp only [List.length_drop, List.length_cons] at h2 ⊢; omega)]

theorem chunks1200_step (data : List Nat) (h : data ≠ []) :
    chunks1200 data = data.take 1200 :: chunks1200 (data.drop 1200) := by
  cases data with
  | nil => exact absurd rfl h
  | cons b t =>
    show chunksAux (t.length + 1) (b :: t) = _
    simp only [chunksAux]
    rw [chunksAux_fuel_irrel t.length ((b :: t).drop 1200).length ((b :: t).drop 1200)
      (by simp only [List.length_drop, List.length_cons]; omega) le_rfl]
    rfl

/-- Claim C4: write(data) on an ESTABLISHED socket emits exactly the segments
of packetsOf over the 1200-byte chunks of data: each chunk is at most 1200
bytes, the chunks concatenate back to data, every segment carries the ACK
flag, ack fixed at the current ack and seq starting at the current send seq
and advancing by each payload length; the socket seq advances by data.length
in total and the sent segments are appended to the unacked-sent list. -/
theorem claim_C4 (sock : TcpSocket) (data : List Nat) (h : sock.state = .ESTABLISHED) :
    sock.write data = some
      ({ sock with
          seq := sock.seq + data.length,
          sentPacketsUnacknowledged := sock.sentPacketsUnacknowledged ++
            packetsOf sock.srcIp sock.destIp sock.srcPort sock.destPort sock.seq sock.ack
              (chunks1200 data) },
       (packetsOf sock.srcIp sock.destIp sock.srcPort sock.destPort sock.seq sock.ack
         (chunks1200 data)).map .segmentSent)
    ∧ (∀ c ∈ chunks1200 data, c.length ≤ 1200)
    ∧ (chunks1200 data).flatten = data := by
  refine ⟨?_, chunks1200_le data, chunks1200_flatten data⟩
  have hlen : data.length = ((chunks1200 data).map List.length).sum := by
    conv_lhs => rw [← chunks1200_flatten data]
    exact List.length_flatten _
  unfold TcpSocket.write
  rw [if_neg (by simp [h]), hlen, writeChunks_est _ _ h]

theorem replicate_ne_nil (n : Nat) (h : 0 < n) (a : Nat) : List.replicate n a ≠ [] := by
  cases n with
  | zero => omega
  | succ n => simp [List.replicate_succ]

theorem chunks1200_replicate2500 :
    chunks1200 (List.replicate 2500 (0 : Nat)) =
      [List.replicate 1200 0, List.replicate 1200 0, List.replicate 100 0] := by
  rw [chunks1200_step _ (replicate_ne_nil 2500 (by omega) 0), List.take_replicate,
    List.drop_replicate]
  norm_num
  rw [chunks1200_step _ (replicate_ne_nil 1300 (by omega) 0), List.take_replicate,
    List.drop_replicate]
  norm_num
  rw [chunks1200_step _ (replicate_ne_nil 100 (by omega) 0), List.take_replicate,
    List.drop_replicate]
  norm_num
  rfl

/-- Claim C4 witness: a concrete ESTABLISHED socket writing 2500 bytes; the
chunks are 1200, 1200 and 100 bytes long, as the claim states. -/
theorem claim_C4_witness :
    sampleEstablishedSocket.state = .ESTABLISHED ∧
    (chunks1200 (List.replicate 2500 (0 : Nat))).map List.length = [1200, 1200, 100] ∧
    sampleEstablishedSocket.write (List.replicate 2500 0) = some
      ({ sampleEstablishedSocket with
          seq := sampleEstablishedSocket.seq + (List.replicate 2500 0).length,
          sentPacketsUnacknowledged := sampleEstablishedSocket.sentPacketsUnacknowledged ++
            packetsOf sampleEstablishedSocket.srcIp sampleEstablishedSocket.destIp
              sampleEstablishedSocket.srcPort sampleEstablishedSocket.destPort
              sampleEstablishedSocket.seq sampleEstablishedSocket.ack
              (chunks1200 (List.replicate 2500 0)) },
       (packetsOf sampleEstablishedSocket.srcIp sampleEstablishedSocket.destIp
         sampleEstablishedSocket.srcPort sampleEstablishedSocket.destPort
         sampleEstablishedSocket.seq sampleEstablishedSocket.ack
         (chunks1200 (List.replicate 2500 0))).map .segmentSent) :=
  ⟨rfl,
   by
    rw [chunks1200_replicate2500]
    simp only [List.map_cons, List.map_nil, List.length_replicate],
   (claim_C4 sampleEstablishedSocket (List.replicate 2500 0) rfl).1⟩

theorem writeAll_est (bufs : List (List Nat)) (sock : TcpSocket)
    (h : sock.state = .ESTABLISHED) :
    ∃ sock' events, writeAll sock bufs = some (sock', events) ∧
      sock'.state = .ESTABLISHED ∧
      sock'.nEstablishedCallbacks = sock.nEstablishedCallbacks ∧
      sock'.writeOnceEstablished = sock.writeOnceEstablished ∧
      ∀ e ∈ events, ∃ p, e = TcpEvent.segmentSent p := by
  induction bufs generalizing sock with
  | nil => exact ⟨sock, [], rfl, h, rfl, rfl, by simp⟩
  | cons d rest ih =>
    have hw : sock.write d = writeChunks sock (chunks1200 d) := by
      unfold TcpSocket.write
      rw [if_neg (by simp [h])]
    rw [writeChunks_est _ _ h] at hw
    obtain ⟨sock', events, heq, hst, hn, hwo, hseg⟩ := ih
      { sock with
          seq := sock.seq + ((chunks1200 d).map List.length).sum,
          sentPacketsUnacknowledged := sock.sentPacketsUnacknowledged ++
            packetsOf sock.srcIp sock.destIp sock.srcPort sock.destPort sock.seq sock.ack
              (chunks1200 d) } h
    refine ⟨sock',
      (packetsOf sock.srcIp sock.destIp sock.srcPort sock.destPort sock.seq sock.ack
        (chunks1200 d)).map TcpEvent.segmentSent ++ events, ?_, hst, hn, hwo, ?_⟩
    · show (sock.write d).bind _ = _
      rw [hw]
      show (writeAll _ rest).bind _ = _
      rw [heq]
      rfl
    · intro e he
      simp only [List.mem_append] at he
      rcases he with h1 | h2
      · simp only [List.mem_map] at h1
        obtain ⟨p, _, hp⟩ := h1
        exact ⟨p, hp.symm⟩
      · exact hseg e h2

/-- Claim C2 (amended): when _onEstablishedCallback runs on an ESTABLISHED
socket, all buffered pre-established writes are emitted as TCP segments
strictly BEFORE the registered onEstablished callbacks are invoked: the event
trace is a list of segmentSent events followed by the single
establishedCallbacksFired event.  (The claim as stated has the order
backwards; see the counterexample.) -/
theorem claim_C2_amended (sock : TcpSocket) (h : sock.state = .ESTABLISHED) :
    ∃ sock' segEvents,
      onEstablishedCallbackRun sock = some (sock',
        segEvents ++ [TcpEvent.establishedCallbacksFired sock.nEstablishedCallbacks]) ∧
      ∀ e ∈ segEvents, ∃ p, e = TcpEvent.segmentSent p := by
  obtain ⟨sock', events, heq, _, hn, _, hseg⟩ :=
    writeAll_est sock.writeOnceEstablished { sock with writeOnceEstablished := [] } h
  refine ⟨sock', events, ?_, hseg⟩
  show (writeAll { sock with writeOnceEstablished := [] } sock.writeOnceEstablished).bind _ = _
  rw [heq]
  simp only [Option.some_bind, hn]

/-- Claim C2 counterexample: for the concrete socket with buffered write [42]
and one registered callback, _onEstablishedCallback emits the buffered
segment FIRST and fires the callbacks second, so the claimed ordering
(callbacks strictly before any buffered write) is violated. -/
theorem claim_C2_counterexample :
    sampleBufferedSocket.writeOnceEstablished ≠ [] ∧
    (onEstablishedCallbackRun sampleBufferedSocket).map Prod.snd =
      some [TcpEvent.segmentSent
              { srcIp := 1, destIp := 2, srcPort := 10, destPort := 20, seq := 1000,
                ack := 2000, flags := { ack := true }, data := [42] },
            TcpEvent.establishedCallbacksFired 1] ∧
    ¬ callbacksBeforeWrites
        [TcpEvent.segmentSent
          { srcIp := 1, destIp := 2, srcPort := 10, destPort := 20, seq := 1000,
            ack := 2000, flags := { ack := true }, data := [42] },
         TcpEvent.establishedCallbacksFired 1] := by
  refine ⟨by decide, by decide, ?_⟩
  intro horder
  have := horder 1 0 (by decide) (by decide) ⟨1, rfl⟩
    ⟨{ srcIp := 1, destIp := 2, srcPort := 10, destPort := 20, seq := 1000,
       ack := 2000, flags := { ack := true }, data := [42] }, rfl⟩
  omega

/-- Claim C2 witness: the amended theorem applied to the concrete buffered
socket. -/
theorem claim_C2_witness :
    sampleBufferedSocket.state = .ESTABLISHED ∧
    ∃ sock' segEvents,
      onEstablishedCallbackRun sampleBufferedSocket = some (sock',
        segEvents ++ [TcpEvent.establishedCallbacksFired
          sampleBufferedSocket.nEstablishedCallbacks]) ∧
      ∀ e ∈ segEvents, ∃ p, e = TcpEvent.segmentSent p :=
  ⟨rfl, claim_C2_amended sampleBufferedSocket rfl⟩

theorem ackFiltered_state (sock : TcpSocket) (packet : TcpPacket) :
    (ackFiltered sock packet).state = sock.state := by
  unfold ackFiltered
  split <;> rfl

theorem ackFiltered_writeOnce (sock : TcpSocket) (packet : TcpPacket) :
    (ackFiltered sock packet).writeOnceEstablished = sock.writeOnceEstablished := by
  unfold ackFiltered
  split <;> rfl

theorem ackFiltered_sent_of_ack (sock : TcpSocket) (packet : TcpPacket)
    (hack : packet.flags.ack = true) :
    (ackFiltered sock packet).sentPacketsUnacknowledged =
      sock.sentPacketsUnacknowledged.filter
        (fun p => p.seq + p.data.length > packet.ack) := by
  simp [ackFiltered, hack]

theorem process_listen_syn (sock : TcpSocket) (packet : TcpPacket)
    (hinit : sock.state ≠ .INIT)
    (hown : ¬(packet.srcIp = sock.srcIp ∧ packet.srcPort = sock.srcPort))
    (hdest : packet.destIp = sock.srcIp ∧ packet.destPort = sock.srcPort)
    (hfin : packet.flags.fin = false)
    (hstate : sock.state = .LISTEN)
    (hsyn : packet.flags.syn = true) :
    sock.process packet = some (sendPacket
      { ackFiltered sock packet with state := .SYN_RECEIVED, ack := packet.seq + 1 }
      1 (ackFiltered sock packet).seq (packet.seq + 1) { syn := true, ack := true } []) := by
  unfold TcpSocket.process
  rw [if_neg hinit, if_neg hown, if_neg (by simp [hdest.1, hdest.2]), if_neg (by simp [hfin])]
  simp only [ackFiltered_state, hstate, hsyn]
  simp

theorem process_listen_nosyn (sock : TcpSocket) (packet : TcpPacket)
    (hinit : sock.state ≠ .INIT)
    (hown : ¬(packet.srcIp = sock.srcIp ∧ packet.srcPort = sock.srcPort))
    (hdest : packet.destIp = sock.srcIp ∧ packet.destPort = sock.srcPort)
    (hfin : packet.flags.fin = false)
    (hstate : sock.state = .LISTEN)
    (hsyn : packet.flags.syn = false) :
    sock.process packet = some (ackFiltered sock packet, []) := by
  unfold TcpSocket.process
  rw [if_neg hinit, if_neg hown, if_neg (by simp [hdest.1, hdest.2]), if_neg (by simp [hfin])]
  simp only [ackFiltered_state, hstate, hsyn]
  simp

theorem ackFiltered_srcIp (sock : TcpSocket) (packet : TcpPacket) :
    (ackFiltered sock packet).srcIp = sock.srcIp := by
  unfold ackFiltered
  split <;> rfl

theorem ackFiltered_destIp (sock : TcpSocket) (packet : TcpPacket) :
    (ackFiltered sock packet).destIp = sock.destIp := by
  unfold ackFiltered
  split <;> rfl

theorem ackFiltered_srcPort (sock : TcpSocket) (packet : TcpPacket) :
    (ackFiltered sock packet).srcPort = sock.srcPort := by
  unfold ackFiltered
  split <;> rfl

theorem ackFiltered_destPort (sock : TcpSocket) (packet : TcpPacket) :
    (ackFiltered sock packet).destPort = sock.destPort := by
  unfold ackFiltered
  split <;> rfl

theorem ackFiltered_isServer (sock : TcpSocket) (packet : TcpPacket) :
    (ackFiltered sock packet).isServer = sock.isServer := by
  unfold ackFiltered
  split <;> rfl

theorem ackFiltered_seq (sock : TcpSocket) (packet : TcpPacket) :
    (ackFiltered sock packet).seq = sock.seq := by
  unfold ackFiltered
  split <;> rfl

theorem ackFiltered_ack (sock : TcpSocket) (packet : TcpPacket) :
    (ackFiltered sock packet).ack = sock.ack := by
  unfold ackFiltered
  split <;> rfl

theorem ackFiltered_received (sock : TcpSocket) (packet : TcpPacket) :
    (ackFiltered sock packet).receivedPacketsUnacknowledged =
      sock.receivedPacketsUnacknowledged := by
  unfold ackFiltered
  split <;> rfl

theorem ackFiltered_nEstablished (sock : TcpSocket) (packet : TcpPacket) :
    (ackFiltered sock packet).nEstablishedCallbacks = sock.nEstablishedCallbacks := by
  unfold ackFiltered
  split <;> rfl

theorem ackFiltered_nClose (sock : TcpSocket) (packet : TcpPacket) :
    (ackFiltered sock packet).nCloseCallbacks = sock.nCloseCallbacks := by
  unfold ackFiltered
  split <;> rfl

theorem process_fin (sock : TcpSocket) (packet : TcpPacket)
    (hinit : sock.state ≠ .INIT)
    (hown : ¬(packet.srcIp = sock.srcIp ∧ packet.srcPort = sock.srcPort))
    (hdest : packet.destIp = sock.srcIp ∧ packet.destPort = sock.srcPort)
    (hfin : packet.flags.fin = true) :
    sock.process packet = some sock.close := by
  unfold TcpSocket.process
  rw [if_neg hinit, if_neg hown, if_neg (by simp [hdest.1, hdest.2]), if_pos (by simp [hfin])]

theorem process_synrecv_ack (sock : TcpSocket) (packet : TcpPacket)
    (hinit : sock.state ≠ .INIT)
    (hown : ¬(packet.srcIp = sock.srcIp ∧ packet.srcPort = sock.srcPort))
    (hdest : packet.destIp = sock.srcIp ∧ packet.destPort = sock.srcPort)
    (hfin : packet.flags.fin = false)
    (hstate : sock.state = .SYN_RECEIVED)
    (hack : packet.flags.ack = true) :
    sock.process packet = some ({ ackFiltered sock packet with state := .ESTABLISHED },
      [TcpEvent.establishedCallbackScheduled]) := by
  unfold TcpSocket.process
  rw [if_neg hinit, if_neg hown, if_neg (by simp [hdest.1, hdest.2]), if_neg (by simp [hfin])]
  simp only [ackFiltered_state, hstate, hack]
  simp

theorem process_synsent_synack (sock : TcpSocket) (packet : TcpPacket)
    (hinit : sock.state ≠ .INIT)
    (hown : ¬(packet.srcIp = sock.srcIp ∧ packet.srcPort = sock.srcPort))
    (hdest : packet.destIp = sock.srcIp ∧ packet.destPort = sock.srcPort)
    (hfin : packet.flags.fin = false)
    (hstate : sock.state = .SYN_SENT)
    (hsyn : packet.flags.syn = true)
    (hack : packet.flags.ack = true) :
    sock.process packet = some
      ((sendPacket { ackFiltered sock packet with state := .ESTABLISHED, ack := packet.seq + 1 }
          0 (ackFiltered sock packet).seq (packet.seq + 1) { ack := true } []).1,
       (sendPacket { ackFiltered sock packet with state := .ESTABLISHED, ack := packet.seq + 1 }
          0 (ackFiltered sock packet).seq (packet.seq + 1) { ack := true } []).2 ++
         [TcpEvent.establishedCallbackScheduled]) := by
  unfold TcpSocket.process
  rw [if_neg hinit, if_neg hown, if_neg (by simp [hdest.1, hdest.2]), if_neg (by simp [hfin])]
  simp only [ackFiltered_state, hstate, hsyn, hack]
  simp

theorem process_synsent_nosyn (sock : TcpSocket) (packet : TcpPacket)
    (hinit : sock.state ≠ .INIT)
    (hown : ¬(packet.srcIp = sock.srcIp ∧ packet.srcPort = sock.srcPort))
    (hdest : packet.destIp = sock.srcIp ∧ packet.destPort = sock.srcPort)
    (hfin : packet.flags.fin = false)
    (hstate : sock.state = .SYN_SENT)
    (hsyn : packet.flags.syn = false) :
    sock.process packet = some (ackFiltered sock packet, []) := by
  unfold TcpSocket.process
  rw [if_neg hinit, if_neg hown, if_neg (by simp [hdest.1, hdest.2]), if_neg (by simp [hfin])]
  simp only [ackFiltered_state, hstate, hsyn]
  simp

theorem process_closed (sock : TcpSocket) (packet : TcpPacket)
    (hinit : sock.state ≠ .INIT)
    (hown : ¬(packet.srcIp = sock.srcIp ∧ packet.srcPort = sock.srcPort))
    (hdest : packet.destIp = sock.srcIp ∧ packet.destPort = sock.srcPort)
    (hfin : packet.flags.fin = false)
    (hstate : sock.state = .CLOSED) :
    sock.process packet = some (ackFiltered sock packet, []) := by
  unfold TcpSocket.process
  rw [if_neg hinit, if_neg hown, if_neg (by simp [hdest.1, hdest.2]), if_neg (by simp [hfin])]
  simp only [ackFiltered_state, hstate]

theorem process_established_shape (sock : TcpSocket) (packet : TcpPacket)
    (hinit : sock.state ≠ .INIT)
    (hown : ¬(packet.srcIp = sock.srcIp ∧ packet.srcPort = sock.srcPort))
    (hdest : packet.destIp = sock.srcIp ∧ packet.destPort = sock.srcPort)
    (hfin : packet.flags.fin = false)
    (hstate : sock.state = .ESTABLISHED)
    (hwo : sock.writeOnceEstablished = []) :
    ∃ sock' events extra, sock.process packet = some (sock', events) ∧
      sock'.sentPacketsUnacknowledged =
        (ackFiltered sock packet).sentPacketsUnacknowledged ++ extra := by
  unfold TcpSocket.process
  rw [if_neg hinit, if_neg hown, if_neg (by simp [hdest.1, hdest.2]), if_neg (by simp [hfin])]
  simp only [ackFiltered_state, hstate, ackFiltered_writeOnce, hwo]
  simp only [ne_eq, not_true_eq_false, if_false, ite_false, reduceIte]
  rcases drainLoop ((ackFiltered sock packet).receivedPacketsUnacknowledged ++
      [packet]).length ((ackFiltered sock packet).receivedPacketsUnacknowledged ++ [packet])
      (ackFiltered sock packet).ack false [] with ⟨q1, a1, m1, evs1⟩
  cases m1 with
  | true =>
    refine ⟨_, _,
      [{ srcIp := (ackFiltered sock packet).srcIp, destIp := (ackFiltered sock packet).destIp,
         srcPort := (ackFiltered sock packet).srcPort,
         destPort := (ackFiltered sock packet).destPort, seq := (ackFiltered sock packet).seq,
         ack := a1, flags := { ack := true }, data := [] }], rfl, ?_⟩
    simp [sendPacket]
  | false =>
    refine ⟨_, _, [], rfl, ?_⟩
    simp

/-- Claim C3 (amended): for every TcpSocket processing an inbound ACK-flagged
packet (valid for this socket, not its own, not a FIN, and respecting the
invariant that an ESTABLISHED socket has an empty pre-established buffer), a
previously sent packet p is retained in the unacked-sent list exactly when
packet.ack < p.seq + p.data.length, i.e. p is REMOVED exactly when
packet.ack ≥ p.seq + p.data.length.  In particular an ACK with
ack = p.seq + p.data.length does remove p (the claim said it is kept).
Any packets sent while processing are appended after the filtered list. -/
theorem claim_C3_amended (sock : TcpSocket) (packet : TcpPacket)
    (hinit : sock.state ≠ .INIT)
    (hown : ¬(packet.srcIp = sock.srcIp ∧ packet.srcPort = sock.srcPort))
    (hdest : packet.destIp = sock.srcIp ∧ packet.destPort = sock.srcPort)
    (hfin : packet.flags.fin = false)
    (hack : packet.flags.ack = true)
    (hbuf : sock.state = .ESTABLISHED → sock.writeOnceEstablished = []) :
    ∃ sock' events newlySent,
      sock.process packet = some (sock', events) ∧
      sock'.sentPacketsUnacknowledged =
        sock.sentPacketsUnacknowledged.filter
          (fun p => p.seq + p.data.length > packet.ack) ++ newlySent ∧
      ∀ p ∈ sock.sentPacketsUnacknowledged,
        (p ∈ sock.sentPacketsUnacknowledged.filter
            (fun p => p.seq + p.data.length > packet.ack) ↔
          packet.ack < p.seq + p.data.length) := by
  have hmem : ∀ p ∈ sock.sentPacketsUnacknowledged,
      (p ∈ sock.sentPacketsUnacknowledged.filter
          (fun p => p.seq + p.data.length > packet.ack) ↔
        packet.ack < p.seq + p.data.length) := by
    intro p hp
    simp [List.mem_filter, hp]
  have hfilter := ackFiltered_sent_of_ack sock packet hack
  cases hstate : sock.state with
  | INIT => exact absurd hstate hinit
  | LISTEN =>
    by_cases hsyn : packet.flags.syn = true
    · rw [process_listen_syn sock packet hinit hown hdest hfin hstate hsyn]
      refine ⟨_, _,
        [{ srcIp := (ackFiltered sock packet).srcIp, destIp := (ackFiltered sock packet).destIp,
           srcPort := (ackFiltered sock packet).srcPort,
           destPort := (ackFiltered sock packet).destPort, seq := (ackFiltered sock packet).seq,
           ack := packet.seq + 1, flags := { syn := true, ack := true }, data := [] }],
        rfl, ?_, hmem⟩
      simp [sendPacket, hfilter]
    · rw [process_listen_nosyn sock packet hinit hown hdest hfin hstate
        (by simpa using hsyn)]
      exact ⟨_, _, [], rfl, by simp [hfilter], hmem⟩
  | SYN_RECEIVED =>
    rw [process_synrecv_ack sock packet hinit hown hdest hfin hstate hack]
    exact ⟨_, _, [], rfl, by simp [hfilter], hmem⟩
  | SYN_SENT =>
    by_cases hsyn : packet.flags.syn = true
    · rw [process_synsent_synack sock packet hinit hown hdest hfin hstate hsyn hack]
      refine ⟨_, _,
        [{ srcIp := (ackFiltered sock packet).srcIp, destIp := (ackFiltered sock packet).destIp,
           srcPort := (ackFiltered sock packet).srcPort,
           destPort := (ackFiltered sock packet).destPort, seq := (ackFiltered sock packet).seq,
           ack := packet.seq + 1, flags := { ack := true }, data := [] }], rfl, ?_, hmem⟩
      simp [sendPacket, hfilter]
    · rw [process_synsent_nosyn sock packet hinit hown hdest hfin hstate
        (by simpa using hsyn)]
      exact ⟨_, _, [], rfl, by simp [hfilter], hmem⟩
  | ESTABLISHED =>
    obtain ⟨sock', events, extra, heq, hsent⟩ :=
      process_established_shape sock packet hinit hown hdest hfin hstate (hbuf hstate)
    exact ⟨sock', events, extra, heq, by rw [hsent, hfilter], hmem⟩
  | CLOSED =>
    rw [process_closed sock packet hinit hown hdest hfin hstate]
    exact ⟨_, _, [], rfl, by simp [hfilter], hmem⟩

/-- Claim C3 counterexample: the CLOSED socket above processes an inbound
packet with the ACK flag and ack = 101 = p.seq + p.data.length.  The claim
says p is removed only when ack is STRICTLY greater than 101, so p should
stay; the code keeps only packets with p.seq + p.data.length > ack and
removes p. -/
theorem claim_C3_counterexample :
    (sampleClosedSocket.process
      { srcIp := 2, destIp := 1, srcPort := 20, destPort := 10, seq := 0, ack := 101,
        flags := { ack := true }, data := [] }).map
      (fun r => r.1.sentPacketsUnacknowledged) = some [] ∧
    ¬ (101 > 100 + ([7] : List Nat).length) := by
  refine ⟨by decide, by decide⟩

/-- Claim C3 witness: the amended theorem applied to the concrete CLOSED
socket and an incoming ACK with ack = 101, discharging every hypothesis. -/
theorem claim_C3_witness :
    (sampleClosedSocket.state ≠ .INIT ∧
     ¬((2 : Nat) = sampleClosedSocket.srcIp ∧ (20 : Nat) = sampleClosedSocket.srcPort) ∧
     ((1 : Nat) = sampleClosedSocket.srcIp ∧ (10 : Nat) = sampleClosedSocket.srcPort)) ∧
    ∃ sock' events newlySent,
      sampleClosedSocket.process
        { srcIp := 2, destIp := 1, srcPort := 20, destPort := 10, seq := 0, ack := 101,
          flags := { ack := true }, data := [] } = some (sock', events) ∧
      sock'.sentPacketsUnacknowledged =
        sampleClosedSocket.sentPacketsUnacknowledged.filter
          (fun p => p.seq + p.data.length > 101) ++ newlySent ∧
      ∀ p ∈ sampleClosedSocket.sentPacketsUnacknowledged,
        (p ∈ sampleClosedSocket.sentPacketsUnacknowledged.filter
            (fun p => p.seq + p.data.length > 101) ↔
          101 < p.seq + p.data.length) :=
  ⟨⟨by decide, by decide, by decide⟩,
   claim_C3_amended sampleClosedSocket
     { srcIp := 2, destIp := 1, srcPort := 20, destPort := 10, seq := 0, ack := 101,
       flags := { ack := true }, data := [] }
     (by decide) (by decide) (by decide) (by decide) (by decide) (by decide)⟩

/-- Claim C5 counterexample: the LISTEN socket processes an inbound packet
with NO flags set (in particular no SYN).  The claim says the socket
transitions to SYN_RECEIVED and emits a SYN+ACK regardless of the SYN flag;
the code checks `if (tcpPacket.flags.syn)` and does nothing here: the socket
stays in LISTEN and no segment is emitted. -/
theorem claim_C5_counterexample :
    (sampleListenSocket.process
      { srcIp := 2, destIp := 1, srcPort := 20, destPort := 10, seq := 300, ack := 0,
        flags := {}, data := [] }).map (fun r => (r.1.state, r.2)) =
      some (TcpState.LISTEN, []) ∧
    TcpState.LISTEN ≠ TcpState.SYN_RECEIVED := by
  refine ⟨by decide, by decide⟩

/-- Claim C5 (amended): a server socket in LISTEN processing a valid inbound
non-FIN packet transitions to SYN_RECEIVED and emits a SYN+ACK (seq = current
seq, ack = packet.seq + 1, seq advancing by 1) exactly when the SYN flag of
the packet is set; without SYN it stays in LISTEN and emits nothing.  The
LISTEN transition DOES validate the SYN flag (the ACK flag is still not
validated to be unset). -/
theorem claim_C5_amended (sock : TcpSocket) (packet : TcpPacket)
    (hinit : sock.state ≠ .INIT)
    (hown : ¬(packet.srcIp = sock.srcIp ∧ packet.srcPort = sock.srcPort))
    (hdest : packet.destIp = sock.srcIp ∧ packet.destPort = sock.srcPort)
    (hfin : packet.flags.fin = false)
    (hstate : sock.state = .LISTEN) :
    (packet.flags.syn = true →
      sock.process packet = some
        ({ ackFiltered sock packet with
            state := .SYN_RECEIVED, ack := packet.seq + 1, seq := sock.seq + 1,
            sentPacketsUnacknowledged :=
              (ackFiltered sock packet).sentPacketsUnacknowledged ++
                [{ srcIp := sock.srcIp, destIp := sock.destIp, srcPort := sock.srcPort,
                   destPort := sock.destPort, seq := sock.seq, ack := packet.seq + 1,
                   flags := { syn := true, ack := true }, data := [] }] },
         [TcpEvent.segmentSent
           { srcIp := sock.srcIp, destIp := sock.destIp, srcPort := sock.srcPort,
             destPort := sock.destPort, seq := sock.seq, ack := packet.seq + 1,
             flags := { syn := true, ack := true }, data := [] }])) ∧
    (packet.flags.syn = false →
      sock.process packet = some (ackFiltered sock packet, [])) := by
  constructor
  · intro hsyn
    rw [process_listen_syn sock packet hinit hown hdest hfin hstate hsyn]
    simp only [sendPacket, ackFiltered_srcIp, ackFiltered_destIp, ackFiltered_srcPort,
      ackFiltered_destPort, ackFiltered_seq]
  · intro hsyn
    exact process_listen_nosyn sock packet hinit hown hdest hfin hstate hsyn

/-- Claim C5 witness: the amended theorem applied to the concrete LISTEN
socket; with a SYN packet of seq 300 the socket moves to SYN_RECEIVED and
answers SYN+ACK with ack 301; with a flagless packet nothing happens. -/
theorem claim_C5_witness :
    (sampleListenSocket.state = .LISTEN ∧ sampleListenSocket.state ≠ .INIT) ∧
    (TcpFlags.syn { syn := true } = true →
      sampleListenSocket.process
        { srcIp := 2, destIp := 1, srcPort := 20, destPort := 10, seq := 300, ack := 0,
          flags := { syn := true }, data := [] } = some
        ({ ackFiltered sampleListenSocket
              { srcIp := 2, destIp := 1, srcPort := 20, destPort := 10, seq := 300, ack := 0,
                flags := { syn := true }, data := [] } with
            state := .SYN_RECEIVED, ack := 300 + 1, seq := sampleListenSocket.seq + 1,
            sentPacketsUnacknowledged :=
              (ackFiltered sampleListenSocket
                { srcIp := 2, destIp := 1, srcPort := 20, destPort := 10, seq := 300, ack := 0,
                  flags := { syn := true }, data := [] }).sentPacketsUnacknowledged ++
                [{ srcIp := sampleListenSocket.srcIp, destIp := sampleListenSocket.destIp,
                   srcPort := sampleListenSocket.srcPort,
                   destPort := sampleListenSocket.destPort, seq := sampleListenSocket.seq,
                   ack := 300 + 1, flags := { syn := true, ack := true }, data := [] }] },
         [TcpEvent.segmentSent
           { srcIp := sampleListenSocket.srcIp, destIp := sampleListenSocket.destIp,
             srcPort := sampleListenSocket.srcPort, destPort := sampleListenSocket.destPort,
             seq := sampleListenSocket.seq, ack := 300 + 1,
             flags := { syn := true, ack := true }, data := [] }])) ∧
    (TcpFlags.syn { syn := true } = false →
      sampleListenSocket.process
        { srcIp := 2, destIp := 1, srcPort := 20, destPort := 10, seq := 300, ack := 0,
          flags := { syn := true }, data := [] } = some
        (ackFiltered sampleListenSocket
          { srcIp := 2, destIp := 1, srcPort := 20, destPort := 10, seq := 300, ack := 0,
            flags := { syn := true }, data := [] }, [])) :=
  ⟨⟨rfl, by decide⟩,
   (claim_C5_amended sampleListenSocket
     { srcIp := 2, destIp := 1, srcPort := 20, destPort := 10, seq := 300, ack := 0,
       flags := { syn := true }, data := [] }
     (by decide) (by decide) (by decide) (by decide) rfl).1,
   (claim_C5_amended sampleListenSocket
     { srcIp := 2, destIp := 1, srcPort := 20, destPort := 10, seq := 300, ack := 0,
       flags := { syn := true }, data := [] }
     (by decide) (by decide) (by decide) (by decide) rfl).2⟩

/-- Claim C10: close() is not idempotent in its observable effects.  For
every socket, close() sets the state to CLOSED and invokes all registered
onClose callbacks, with no guard on the current state (so a second close, on
an already CLOSED socket, fires them again); and an inbound FIN processed
while in CLOSED state calls close() again, firing the callbacks once more. -/
theorem claim_C10 (sock : TcpSocket) (packet : TcpPacket)
    (hclosed : sock.state = .CLOSED)
    (hown : ¬(packet.srcIp = sock.srcIp ∧ packet.srcPort = sock.srcPort))
    (hdest : packet.destIp = sock.srcIp ∧ packet.destPort = sock.srcPort)
    (hfin : packet.flags.fin = true) :
    (∀ s : TcpSocket, TcpSocket.close s =
      ({ s with state := .CLOSED }, [TcpEvent.closeCallbacksFired s.nCloseCallbacks])) ∧
    sock.process packet =
      some ({ sock with state := .CLOSED },
        [TcpEvent.closeCallbacksFired sock.nCloseCallbacks]) := by
  refine ⟨fun s => rfl, ?_⟩
  rw [process_fin sock packet (by simp [hclosed]) hown hdest hfin]
  rfl

/-- Claim C10 witness: a concrete CLOSED socket with one registered onClose
callback receives a FIN; processing fires the callback once more. -/
theorem claim_C10_witness :
    (sampleClosedSocket.state = .CLOSED ∧
     TcpFlags.fin { fin := true } = true) ∧
    ((∀ s : TcpSocket, TcpSocket.close s =
      ({ s with state := .CLOSED }, [TcpEvent.closeCallbacksFired s.nCloseCallbacks])) ∧
    sampleClosedSocket.process
      { srcIp := 2, destIp := 1, srcPort := 20, destPort := 10, seq := 0, ack := 0,
        flags := { fin := true }, data := [] } =
      some ({ sampleClosedSocket with state := .CLOSED },
        [TcpEvent.closeCallbacksFired sampleClosedSocket.nCloseCallbacks])) :=
  ⟨⟨rfl, by decide⟩,
   claim_C10 sampleClosedSocket
     { srcIp := 2, destIp := 1, srcPort := 20, destPort := 10, seq := 0, ack := 0,
       flags := { fin := true }, data := [] }
     rfl (by decide) (by decide) (by decide)⟩

theorem testBit_mul_pow16_add (a b i : Nat) (hb : b < 2 ^ 16) :
    (a * 2 ^ 16 + b).testBit i = if i < 16 then b.testBit i else a.testBit (i - 16) := by
  by_cases hi : i < 16
  · have hdiv : (a * 2 ^ 16 + b) / 2 ^ i % 2 = b / 2 ^ i % 2 := by
      have h1 : (2 : Nat) ^ 16 = 2 ^ (16 - i) * 2 ^ i := by
        rw [← pow_add]
        congr 1
        omega
      rw [h1, ← Nat.mul_assoc, Nat.add_comm,
        Nat.add_mul_div_right _ _ (Nat.pos_pow_of_pos i (by norm_num))]
      have h2 : a * 2 ^ (16 - i) = 2 * (a * 2 ^ (16 - i - 1)) := by
        have h3 : (2 : Nat) ^ (16 - i) = 2 * 2 ^ (16 - i - 1) := by
          rw [← pow_succ']
          congr 1
          omega
        rw [h3]
        ring
      rw [h2]
      omega
    simp only [hi, if_true, Nat.testBit_to_div_mod, hdiv]
  · have hdiv : (a * 2 ^ 16 + b) / 2 ^ i = a / 2 ^ (i - 16) := by
      have h1 : (2 : Nat) ^ i = 2 ^ 16 * 2 ^ (i - 16) := by
        rw [← pow_add]
        congr 1
        omega
      rw [h1, ← Nat.div_div_eq_div_mul, Nat.add_comm,
        Nat.add_mul_div_right _ _ (by norm_num : (0 : Nat) < 2 ^ 16),
        Nat.div_eq_of_lt hb]
      simp
    simp only [hi, if_false, Nat.testBit_to_div_mod, hdiv]

theorem testBit_mul_pow16 (a i : Nat) :
    (a * 2 ^ 16).testBit i = if i < 16 then false else a.testBit (i - 16) := by
  have := testBit_mul_pow16_add a 0 i (by norm_num)
  simpa using this

theorem land_high (x a b : Nat) (hb : b < 2 ^ 16) :
    (x * 2 ^ 16) &&& (a * 2 ^ 16 + b) = (x &&& a) * 2 ^ 16 := by
  apply Nat.eq_of_testBit_eq
  intro i
  rw [Nat.testBit_land, testBit_mul_pow16, testBit_mul_pow16_add a b i hb, testBit_mul_pow16]
  by_cases hi : i < 16
  · simp [hi]
  · simp [hi, Nat.testBit_land]

theorem land_mask16 (h : Nat) (hh : h < 2 ^ 16) : 0xffff &&& h = h := by
  apply Nat.eq_of_testBit_eq
  intro i
  rw [Nat.testBit_land]
  by_cases hi : i < 16
  · have h1 : (0xffff : Nat).testBit i = true := by
      have h2 := Nat.testBit_two_pow_sub_one 16 i
      norm_num at h2
      simp [h2, hi]
    simp [h1]
  · have h1 : h.testBit i = false :=
      Nat.testBit_eq_false_of_lt
        (lt_of_lt_of_le hh (Nat.pow_le_pow_right (by norm_num) (by omega)))
    simp [h1]

theorem land_subnet_mask_in (k : Nat) (hk : k < 65536) :
    0xffff0000 &&& (0xc0a80000 + k) = 0xc0a80000 := by
  have h1 : (0xffff0000 : Nat) = 0xffff * 2 ^ 16 := by norm_num
  have h2 : (0xc0a80000 : Nat) + k = 0xc0a8 * 2 ^ 16 + k := by norm_num
  rw [h1, h2, land_high _ _ _ (by omega)]
  decide

theorem land_subnet_mask_dec (ip : Nat) (hip : ip ≤ 0xffffffff)
    (h : 0xffff0000 &&& ip = 0xc0a80000) : ∃ k < 65536, ip = 0xc0a80000 + k := by
  have hdm := Nat.div_add_mod ip (2 ^ 16)
  have hlo : ip % 2 ^ 16 < 2 ^ 16 := Nat.mod_lt _ (by norm_num)
  have hhi : ip / 2 ^ 16 < 2 ^ 16 := by omega
  have h1 : (0xffff0000 : Nat) = 0xffff * 2 ^ 16 := by norm_num
  have h2 : ip = ip / 2 ^ 16 * 2 ^ 16 + ip % 2 ^ 16 := by omega
  rw [h1, h2, land_high _ _ _ hlo] at h
  have h3 : (0xffff &&& ip / 2 ^ 16) = 0xc0a8 := by
    have : (0xc0a80000 : Nat) = 0xc0a8 * 2 ^ 16 := by norm_num
    rw [this] at h
    exact Nat.eq_of_mul_eq_mul_right (by norm_num) h
  rw [land_mask16 _ hhi] at h3
  exact ⟨ip % 2 ^ 16, hlo, by omega⟩

theorem mapGet_mapSet {α : Type} (k k' : Nat) (v : α) (m : List (Nat × α)) :
    mapGet k' (mapSet k v m) = if k' = k then some v else mapGet k' m := by
  induction m with
  | nil =>
    by_cases h : k' = k
    · subst h
      simp [mapSet, mapGet]
    · have h' : ¬(k = k') := fun hh => h hh.symm
      simp [mapSet, mapGet, h, h']
  | cons e rest ih =>
    by_cases h1 : e.1 = k
    · rw [mapSet, if_pos h1]
      by_cases h2 : k' = k
      · subst h2
        simp [mapGet]
      · have h2' : ¬(k = k') := fun hh => h2 hh.symm
        have h3 : ¬(e.1 = k') := by rw [h1]; exact h2'
        simp [mapGet, h2, h2', h3]
    · rw [mapSet, if_neg h1]
      by_cases h2 : e.1 = k'
      · have h3 : ¬(k' = k) := by
          intro hh
          rw [hh] at h2
          exact h1 h2
        simp [mapGet, h2, h3]
      · simp [mapGet, h2, ih]

theorem mem_mapSet {α : Type} (k : Nat) (v : α) (m : List (Nat × α)) :
    ∀ e ∈ mapSet k v m, e = (k, v) ∨ e ∈ m := by
  induction m with
  | nil =>
    intro e he
    simp only [mapSet, List.mem_singleton] at he
    exact Or.inl he
  | cons f rest ih =>
    intro e he
    by_cases h1 : f.1 = k
    · rw [mapSet, if_pos h1] at he
      rcases List.mem_cons.mp he with h2 | h2
      · exact Or.inl h2
      · exact Or.inr (List.mem_cons_of_mem _ h2)
    · rw [mapSet, if_neg h1] at he
      rcases List.mem_cons.mp he with h2 | h2
      · exact Or.inr (h2 ▸ List.mem_cons_self _ _)
      · rcases ih e h2 with h3 | h3
        · exact Or.inl h3
        · exact Or.inr (List.mem_cons_of_mem _ h3)

theorem scanIp_sound (st : RouterState) (fuel : Nat) :
    ∀ cur ip, scanIp st fuel cur = some ip →
      ip ≤ 0xffffffff ∧ st.subnetMask &&& ip = st.subnet ∧ ip ≠ st.subnet ∧
      ip ≠ st.subnetAllOnes ∧ st.isIpAssigned ip = false := by
  induction fuel with
  | zero =>
    intro cur ip h
    simp [scanIp] at h
  | succ fuel ih =>
    intro cur ip h
    rw [scanIp] at h
    by_cases h1 : cur ≤ 0xffffffff
    · rw [if_pos h1] at h
      by_cases h2 : st.subnet ^^^ (st.subnetMask &&& cur) ≠ 0
      · rw [if_pos h2] at h
        exact ih _ _ h
      · rw [if_neg h2] at h
        by_cases h3 : cur = st.subnet ∨ cur = st.subnetAllOnes
        · rw [if_pos h3] at h
          exact ih _ _ h
        · rw [if_neg h3] at h
          by_cases h4 : st.isIpAssigned cur = true
          · rw [if_pos h4] at h
            exact ih _ _ h
          · rw [if_neg h4] at h
            obtain rfl : cur = ip := by simpa using h
            push_neg at h2 h3
            refine ⟨h1, (Nat.xor_eq_zero.mp h2).symm, h3.1, h3.2, by simpa using h4⟩
    · rw [if_neg h1] at h
      simp at h

theorem scanIp_none_complete (st : RouterState) (hmask : st.subnetMask = 0xffff0000)
    (hsub : st.subnet = 0xc0a80000) :
    ∀ n k fuel, k + n = 65536 → n + 1 ≤ fuel →
      scanIp st fuel (0xc0a80000 + k) = none →
      ∀ j, k ≤ j → j < 65536 → j ≠ 0 → j ≠ 65535 →
        st.isIpAssigned (0xc0a80000 + j) = true := by
  have hall : st.subnetAllOnes = 0xc0a8ffff := by
    unfold RouterState.subnetAllOnes jsNot32
    rw [hsub, hmask]
    decide
  intro n
  induction n with
  | zero =>
    intro k fuel hk hfuel hscan j hj1 hj2 hj3 hj4
    omega
  | succ n ih =>
    intro k fuel hk hfuel hscan j hj1 hj2 hj3 hj4
    have hklt : k < 65536 := by omega
    cases fuel with
    | zero => omega
    | succ f =>
      rw [scanIp, if_pos (by omega : 0xc0a80000 + k ≤ 0xffffffff)] at hscan
      rw [hmask, land_subnet_mask_in k hklt, hsub] at hscan
      simp only [Nat.xor_self, ne_eq, not_true_eq_false, if_false, reduceIte] at hscan
      rw [hall] at hscan
      by_cases hspec : k = 0 ∨ k = 65535
      · have hcond : (0xc0a80000 : Nat) + k = 0xc0a80000 ∨ (0xc0a80000 : Nat) + k = 0xc0a8ffff := by
          rcases hspec with h | h
          · exact Or.inl (by omega)
          · exact Or.inr (by omega)
        rw [if_pos hcond] at hscan
        rw [show 0xc0a80000 + k + 1 = 0xc0a80000 + (k + 1) from by omega] at hscan
        exact ih (k + 1) f (by omega) (by omega) hscan j (by omega) hj2 hj3 hj4
      · have hcond : ¬((0xc0a80000 : Nat) + k = 0xc0a80000 ∨ (0xc0a80000 : Nat) + k = 0xc0a8ffff) := by
          intro hor
          rcases hor with h | h
          · exact hspec (Or.inl (by omega))
          · exact hspec (Or.inr (by omega))
        rw [if_neg hcond] at hscan
        by_cases hass : st.isIpAssigned (0xc0a80000 + k) = true
        · rw [if_pos hass] at hscan
          by_cases hjk : j = k
          · rw [hjk]
            exact hass
          · rw [show 0xc0a80000 + k + 1 = 0xc0a80000 + (k + 1) from by omega] at hscan
            exact ih (k + 1) f (by omega) (by omega) hscan j (by omega) hj2 hj3 hj4
        · rw [if_neg hass] at hscan
          simp at hscan

theorem subnetAllOnes_eq (st : RouterState) (hmask : st.subnetMask = 0xffff0000)
    (hsub : st.subnet = 0xc0a80000) : st.subnetAllOnes = 0xc0a8ffff := by
  unfold RouterState.subnetAllOnes jsNot32
  rw [hsub, hmask]
  decide

theorem scanIp_zero_step (st : RouterState) (hmask : st.subnetMask = 0xffff0000)
    (hsub : st.subnet = 0xc0a80000) (fuel : Nat) :
    scanIp st (fuel + 1) 0 = scanIp st fuel 0xc0a80000 := by
  rw [scanIp, if_pos (by omega : (0 : Nat) ≤ 0xffffffff), hmask]
  rw [show (0xffff0000 : Nat) &&& 0 = 0 from by decide, hsub]
  rw [show (0xc0a80000 : Nat) ^^^ 0 = 0xc0a80000 from by decide]
  rw [if_pos (by decide : (0xc0a80000 : Nat) ≠ 0)]

/-- getNextFreeIp (with the adapter subnet 255.255.0.0 / 192.168.0.0) returns
none exactly when every in-subnet IP other than the network and broadcast
addresses is already assigned. -/
theorem getNextFreeIp_none_iff (st : RouterState) (hmask : st.subnetMask = 0xffff0000)
    (hsub : st.subnet = 0xc0a80000) :
    st.getNextFreeIp = none ↔
      ∀ ip, ip ≤ 0xffffffff → st.subnetMask &&& ip = st.subnet →
        ip ≠ st.subnet → ip ≠ st.subnetAllOnes → st.isIpAssigned ip = true := by
  have hall := subnetAllOnes_eq st hmask hsub
  constructor
  · intro hnone ip hle hin hnet hbro
    have h1 : scanIp st (0x100000000 + 1 + 1) 0 = none := hnone
    rw [scanIp_zero_step st hmask hsub] at h1
    rw [hmask, hsub] at hin
    obtain ⟨k, hk, rfl⟩ := land_subnet_mask_dec ip hle hin
    rw [hsub] at hnet
    rw [hall] at hbro
    have hj3 : k ≠ 0 := by
      intro h
      exact hnet (by omega)
    have hj4 : k ≠ 65535 := by
      intro h
      exact hbro (by omega)
    exact scanIp_none_complete st hmask hsub 65536 0 (0x100000000 + 1) (by omega) (by omega)
      (by rw [show (0xc0a80000 : Nat) + 0 = 0xc0a80000 from rfl]; exact h1)
      k (by omega) hk hj3 hj4
  · intro hassigned
    cases hg : st.getNextFreeIp with
    | none => rfl
    | some ip =>
      obtain ⟨hle, hin, hnet, hbro, hfree⟩ := scanIp_sound st _ _ _ hg
      have h2 := hassigned ip hle hin hnet hbro
      rw [hfree] at h2
      cases h2

theorem mapGet_mem {α : Type} (k : Nat) (v : α) (m : List (Nat × α)) :
    mapGet k m = some v → (k, v) ∈ m := by
  induction m with
  | nil => intro h; cases h
  | cons e rest ih =>
    intro h
    by_cases h1 : e.1 = k
    · rw [mapGet, if_pos h1] at h
      obtain rfl : e.2 = v := by injection h
      have h2 : e = (k, e.2) := by
        rw [← h1]
      rw [← h2]
      exact List.mem_cons_self _ _
    · rw [mapGet, if_neg h1] at h
      exact List.mem_cons_of_mem _ (ih h)

theorem routerInv_subnet (st : RouterState) (h : RouterInv st) : st.subnet = 0xc0a80000 := by
  unfold RouterState.subnet
  rw [h.1, h.2.1]
  decide

theorem routerInv_init : RouterInv routerInit := by
  refine ⟨rfl, rfl, ?_⟩
  intro e he
  simp only [routerInit, mapSet, List.mem_singleton] at he
  subst he
  refine ⟨rfl, ⟨by decide, by decide, by decide⟩, by decide⟩

theorem registerDevice_preserves (st : RouterState) (mac : Nat) (h : RouterInv st) :
    RouterInv (st.registerDevice mac).2 ∧
      ∀ d, (st.registerDevice mac).1 = some d → GoodDevice d := by
  have hsub := routerInv_subnet st h
  cases hg : st.getNextFreeIp with
  | none =>
    simp only [RouterState.registerDevice, hg]
    exact ⟨h, by intro d hd; cases hd⟩
  | some ip =>
    obtain ⟨hle, hin, hnet, hbro, hfree⟩ := scanIp_sound st _ _ _ hg
    rw [h.1, hsub] at hin
    rw [hsub] at hnet
    rw [subnetAllOnes_eq st h.1 hsub] at hbro
    have hgood : GoodDevice ⟨mac, ip, false⟩ := ⟨hin, hnet, hbro⟩
    simp only [RouterState.registerDevice, hg]
    constructor
    · refine ⟨h.1, h.2.1, ?_⟩
      intro e he
      simp only [registerDeviceInner] at he
      rcases mem_mapSet _ _ _ e he with h1 | h1
      · subst h1
        refine ⟨rfl, hgood, ?_⟩
        simp only [registerDeviceInner, mapGet_mapSet]
        simp
      · obtain ⟨hm, hgd, hmg⟩ := h.2.2 e h1
        refine ⟨hm, hgd, ?_⟩
        simp only [registerDeviceInner]
        rw [mapGet_mapSet]
        have hne : e.2.ip ≠ ip := by
          intro heq
          unfold RouterState.isIpAssigned at hfree
          rw [← heq, hmg] at hfree
          cases hfree
        rw [if_neg hne]
        exact hmg
    · intro d hd
      obtain rfl : (⟨mac, ip, false⟩ : DeviceM) = d := by injection hd
      exact hgood

theorem getOrRegister_preserves (st : RouterState) (mac : Nat) (h : RouterInv st) :
    RouterInv (st.getOrRegisterDevice mac).2 ∧
      ∀ d, (st.getOrRegisterDevice mac).1 = some d → GoodDevice d := by
  cases hgd : st.getDeviceByMac mac with
  | some d0 =>
    simp only [RouterState.getOrRegisterDevice, hgd]
    refine ⟨h, ?_⟩
    intro d hd
    obtain rfl : d0 = d := by injection hd
    have hmem := mapGet_mem mac d0 st.devices hgd
    exact (h.2.2 (mac, d0) hmem).2.1
  | none =>
    simp only [RouterState.getOrRegisterDevice, hgd]
    exact registerDevice_preserves st mac h

theorem applyOp_preserves (st : RouterState) (op : RouterOp) (h : RouterInv st) :
    RouterInv (applyOp st op).2 ∧ ∀ d, (applyOp st op).1 = some d → GoodDevice d := by
  cases op with
  | register mac => exact registerDevice_preserves st mac h
  | getOrRegister mac => exact getOrRegister_preserves st mac h

theorem runOps_inv (ops : List RouterOp) :
    ∀ st, RouterInv st →
      RouterInv (runOps st ops).1 ∧
      ∀ r ∈ (runOps st ops).2, ∀ d, r = some d → GoodDevice d := by
  induction ops with
  | nil =>
    intro st h
    exact ⟨h, by simp [runOps]⟩
  | cons op rest ih =>
    intro st h
    have hstep := applyOp_preserves st op h
    obtain ⟨h1, h2⟩ := ih (applyOp st op).2 hstep.1
    refine ⟨h1, ?_⟩
    intro r hr d hd
    simp only [runOps, List.mem_cons] at hr
    rcases hr with h3 | h3
    · exact hstep.2 d (h3 ▸ hd)
    · exact h2 r h3 d hd

theorem routerInv_unique (st : RouterState) (h : RouterInv st) :
    ∀ e1 ∈ st.devices, ∀ e2 ∈ st.devices, e1.1 ≠ e2.1 → e1.2.ip ≠ e2.2.ip := by
  intro e1 h1 e2 h2 hne heq
  obtain ⟨hm1, _, hg1⟩ := h.2.2 e1 h1
  obtain ⟨hm2, _, hg2⟩ := h.2.2 e2 h2
  rw [heq, hg2] at hg1
  apply hne
  rw [← hm1, ← hm2]
  injection hg1.symm

/-- Claim C8: across any sequence of registerDevice/getOrRegisterDevice calls
on the adapter router (subnet mask 255.255.0.0), every device ever returned
has an IP inside subnet 192.168.0.0/16 that is neither the network address
192.168.0.0 nor the broadcast 192.168.255.255; no two device entries with
distinct MAC keys hold the same IP; and registerDevice returns undefined
exactly when every non-special in-subnet IP is already assigned. -/
theorem claim_C8 (ops : List RouterOp) (mac : Nat) :
    (∀ r ∈ (runOps routerInit ops).2, ∀ d, r = some d →
        0xffff0000 &&& d.ip = 0xc0a80000 ∧ d.ip ≠ 0xc0a80000 ∧ d.ip ≠ 0xc0a8ffff) ∧
    (∀ e1 ∈ (runOps routerInit ops).1.devices, ∀ e2 ∈ (runOps routerInit ops).1.devices,
        e1.1 ≠ e2.1 → e1.2.ip ≠ e2.2.ip) ∧
    (((runOps routerInit ops).1.registerDevice mac).1 = none ↔
      ∀ ip, ip ≤ 0xffffffff → 0xffff0000 &&& ip = 0xc0a80000 →
        ip ≠ 0xc0a80000 → ip ≠ 0xc0a8ffff →
        (runOps routerInit ops).1.isIpAssigned ip = true) := by
  obtain ⟨hinv, hres⟩ := runOps_inv ops routerInit routerInv_init
  have hmask := hinv.1
  have hsub := routerInv_subnet _ hinv
  have hall := subnetAllOnes_eq _ hmask hsub
  refine ⟨hres, routerInv_unique _ hinv, ?_⟩
  have hreg : ((runOps routerInit ops).1.registerDevice mac).1 = none ↔
      (runOps routerInit ops).1.getNextFreeIp = none := by
    unfold RouterState.registerDevice
    cases hgn : (runOps routerInit ops).1.getNextFreeIp with
    | none => simp
    | some ip => simp
  rw [hreg, getNextFreeIp_none_iff _ hmask hsub, hmask, hsub, hall]

/-- Claim C8 witness: registering MAC 1 on the freshly constructed router
allocates 192.168.0.1, which is in subnet and non-special. -/
theorem claim_C8_witness :
    some (⟨1, 0xc0a80001, false⟩ : DeviceM) ∈ (runOps routerInit [RouterOp.register 1]).2 ∧
    (0xffff0000 &&& (0xc0a80001 : Nat) = 0xc0a80000 ∧ (0xc0a80001 : Nat) ≠ 0xc0a80000 ∧
      (0xc0a80001 : Nat) ≠ 0xc0a8ffff) :=
  ⟨by decide,
   (claim_C8 [RouterOp.register 1] 1).1 (some ⟨1, 0xc0a80001, false⟩) (by decide)
     ⟨1, 0xc0a80001, false⟩ rfl⟩

/-- Claim C9: the router ARP responder, on any decoded inbound ARP frame
(hardwareType is 1 for every frame the decoder delivers): frames from the
router itself are consumed with no reply; frames addressed neither to the
router MAC nor broadcast are not consumed; otherwise a queried IP of a known
device yields a consumed frame and a reply with operation 2,
srcMac = router MAC, destMac = the request srcMac and queriedMac = the
device MAC, while an unknown queried IP is consumed with no reply. -/
theorem claim_C9 (router : RouterState) (frame : ArpData) (hhw : frame.hardwareType = 1) :
    (router.mac = frame.srcMac →
      routerArpOnProcessFrame router frame = (true, none)) ∧
    (router.mac ≠ frame.srcMac →
      ¬(frame.destMac = 0xffffffffffff ∨ frame.destMac = router.mac) →
      routerArpOnProcessFrame router frame = (false, none)) ∧
    (router.mac ≠ frame.srcMac →
      (frame.destMac = 0xffffffffffff ∨ frame.destMac = router.mac) →
      ∀ dev, router.getDeviceByIp frame.queriedIp = some dev →
        ∃ reply, routerArpOnProcessFrame router frame = (true, some reply) ∧
          reply.operation = 2 ∧ reply.srcMac = router.mac ∧
          reply.destMac = frame.srcMac ∧ reply.queriedMac = some dev.mac) ∧
    (router.mac ≠ frame.srcMac →
      (frame.destMac = 0xffffffffffff ∨ frame.destMac = router.mac) →
      router.getDeviceByIp frame.queriedIp = none →
      routerArpOnProcessFrame router frame = (true, none)) := by
  refine ⟨?_, ?_, ?_, ?_⟩
  · intro hsrc
    unfold routerArpOnProcessFrame
    rw [if_pos hsrc]
  · intro hsrc hdst
    unfold routerArpOnProcessFrame
    rw [if_neg hsrc, if_pos hdst]
  · intro hsrc hdst dev hdev
    unfold routerArpOnProcessFrame
    rw [if_neg hsrc, if_neg (not_not_intro hdst), if_neg (by simp [hhw]), hdev]
    exact ⟨_, rfl, rfl, rfl, rfl, rfl⟩
  · intro hsrc hdst hdev
    unfold routerArpOnProcessFrame
    rw [if_neg hsrc, if_neg (not_not_intro hdst), if_neg (by simp [hhw]), hdev]

/-- Claim C9 witness: on the freshly constructed router, a broadcast ARP
request from MAC aa:bb:cc:dd:ee:ff querying the router IP 192.168.13.37 is
consumed and answered with operation 2, srcMac = router MAC, destMac = the
requester and queriedMac = the router MAC. -/
theorem claim_C9_witness :
    (({ srcMac := 0xaabbccddeeff, destMac := 0xffffffffffff, hardwareType := 1,
        protocolType := 0x0800, hardwareSize := 6, protocolSize := 4, operation := 1,
        originMac := 0xaabbccddeeff, originIp := 0xc0a80005, queriedMac := none,
        queriedIp := 0xc0a80d25 } : ArpData).hardwareType = 1 ∧
     routerInit.mac ≠ (0xaabbccddeeff : Nat) ∧
     routerInit.getDeviceByIp 0xc0a80d25 =
       some ⟨routerMacInt, 0xc0a80d25, true⟩) ∧
    ∃ reply, routerArpOnProcessFrame routerInit
        { srcMac := 0xaabbccddeeff, destMac := 0xffffffffffff, hardwareType := 1,
          protocolType := 0x0800, hardwareSize := 6, protocolSize := 4, operation := 1,
          originMac := 0xaabbccddeeff, originIp := 0xc0a80005, queriedMac := none,
          queriedIp := 0xc0a80d25 } = (true, some reply) ∧
      reply.operation = 2 ∧ reply.srcMac = routerInit.mac ∧
      reply.destMac = (0xaabbccddeeff : Nat) ∧
      reply.queriedMac = some (⟨routerMacInt, 0xc0a80d25, true⟩ : DeviceM).mac :=
  ⟨⟨rfl, by decide, by decide⟩,
   (claim_C9 routerInit
     { srcMac := 0xaabbccddeeff, destMac := 0xffffffffffff, hardwareType := 1,
       protocolType := 0x0800, hardwareSize := 6, protocolSize := 4, operation := 1,
       originMac := 0xaabbccddeeff, originIp := 0xc0a80005, queriedMac := none,
       queriedIp := 0xc0a80d25 } rfl).2.2.1 (by decide) (Or.inl rfl)
     ⟨routerMacInt, 0xc0a80d25, true⟩ (by decide)⟩

end Pgmock
